import Mathlib

/-!
# KafkaConnect chat server: session registry and message routing

A shallow embedding of `server/server.go`, `main.go`, `database/database.go` and
`kafka/kafka.go`.

* A connection (`net.Conn`) is a natural number.
* The package-level map `clients` is an association list with one entry per
  connection; ranging over the map visits the entries in list order.  Go leaves
  the iteration order of a map unspecified, so every statement below is made for
  an arbitrary list, that is, for every possible order.
* `clientsMutex` is a flag.  `sync.Mutex` is not reentrant: `Lock` on a held
  mutex never returns, `Unlock` on a free mutex is a fatal runtime error.
* The three gorm tables are lists of rows.  `First` is `ORDER BY id LIMIT 1`,
  `Create` assigns the next auto-increment key and honours the `unique` tags of
  `database.go`, `Update` and `Delete` on a record whose primary key is zero are
  refused by gorm (no `WHERE` clause) and change nothing.  SQL string comparison
  is taken to be exact equality and the store is taken to be available.
* `kafka.SendMessage` appends `(topic, message)` to the log of produced records,
  unless the topic is too long for the client library: `Producer.Produce` then
  panics (librdkafka refuses a topic whose C string is longer than 512 bytes and
  the Go binding panics on the refusal).  Nothing recovers the panic.  The
  producer is otherwise taken to accept the record: its queue has room, and a
  record built from one read of at most 1024 bytes is far below its size limit.
* `conn.Write` appends `(conn, text)` to the log of writes, in program order.
* bcrypt is a parameter (`Hasher`).
* Handlers are run one at a time; a handler either returns, blocks forever in
  `clientsMutex.Lock()`, dies in `clientsMutex.Unlock()`, or panics in
  `Producer.Produce`.
-/

namespace KafkaConnect

/-! ## Data model (`database/database.go`) -/

abbrev Conn := Nat

structure User where
  ID : Nat
  Username : String
  Password : String
  Online : Bool
deriving DecidableEq, Repr

structure Group where
  ID : Nat
  Name : String
deriving DecidableEq, Repr

structure GroupMember where
  ID : Nat
  UserID : Nat
  GroupID : Nat
deriving DecidableEq, Repr

/-- The two bcrypt entry points used by the server.  `CompareHashAndPassword`
is `true` when the Go function returns a nil error. -/
structure Hasher where
  GenerateFromPassword : String → String
  CompareHashAndPassword : String → String → Bool

/-- The whole mutable world a command handler can touch. -/
structure State where
  clients : List (Conn × String)
  clientsMutex : Bool
  users : List User
  groups : List Group
  groupMembers : List GroupMember
  produced : List (String × String)
  writes : List (Conn × String)
  closed : List Conn
deriving DecidableEq, Repr

/-- How a call ends: it returns, it blocks forever in `clientsMutex.Lock()`, the
runtime aborts on `clientsMutex.Unlock()` of a free mutex, or `Producer.Produce`
panics and nothing recovers. -/
inductive Outcome where
  | returned (s : State)
  | blocked (s : State)
  | fatal (s : State)
  | panicked (s : State)
deriving DecidableEq, Repr

/-- The state in which the call ended, however it ended. -/
def Outcome.state : Outcome → State
  | .returned s => s
  | .blocked s => s
  | .fatal s => s
  | .panicked s => s

/-- Sequencing: the rest of the function body runs only if the call returned. -/
def Outcome.bind (o : Outcome) (k : State → Outcome) : Outcome :=
  match o with
  | .returned s => k s
  | .blocked s => .blocked s
  | .fatal s => .fatal s
  | .panicked s => .panicked s

/-! ## Primitive effects -/

/-- Source `clientsMutex.Lock()`. -/
def Lock (s : State) : Outcome :=
  if s.clientsMutex then .blocked s else .returned { s with clientsMutex := true }

/-- Source `clientsMutex.Unlock()`. -/
def Unlock (s : State) : Outcome :=
  if s.clientsMutex then .returned { s with clientsMutex := false } else .fatal s

/-- Source `conn.Write([]byte(text))`; the error result is ignored by every caller. -/
def Write (s : State) (conn : Conn) (text : String) : State :=
  { s with writes := s.writes ++ [(conn, text)] }

/-- The length `strlen` reports for the C copy of a Go string, which is what the
client library measures a topic by: the UTF-8 bytes before the first NUL (all
of them when the string has no NUL). -/
def cStrlen (topic : String) : Nat :=
  ((topic.data.takeWhile (fun c => c.toNat != 0)).map Char.utf8Size).sum

/-- Source `kafka.SendMessage(topic, message)` of `kafka/kafka.go`.
`Producer.Produce` panics when the topic is longer than 512 bytes; otherwise the
record is queued and logged here with the topic as it was passed. -/
def SendMessage (s : State) (topic message : String) : Outcome :=
  if cStrlen topic > 512 then .panicked s
  else .returned { s with produced := s.produced ++ [(topic, message)] }

/-- Source `clients[conn] = username`. -/
def clientsSet (m : List (Conn × String)) (conn : Conn) (username : String) :
    List (Conn × String) :=
  if m.any (fun e => e.1 == conn) then
    m.map (fun e => if e.1 == conn then (conn, username) else e)
  else m ++ [(conn, username)]

/-- Source `delete(clients, conn)`. -/
def clientsDelete (m : List (Conn × String)) (conn : Conn) : List (Conn × String) :=
  m.filter (fun e => e.1 != conn)

/-- Source `clients[conn]` in its one-result form: the empty string when absent. -/
def clientsAt (m : List (Conn × String)) (conn : Conn) : String :=
  (m.lookup conn).getD ""

/-! ## The store (gorm over MySQL) -/

/-- The row gorm `First` returns: among the rows matching `p`, the one with the
smallest primary key. -/
def First {α : Type} (key : α → Nat) (p : α → Bool) (rows : List α) : Option α :=
  (rows.filter p).foldl
    (fun best r =>
      match best with
      | none => some r
      | some b => if key r < key b then some r else some b)
    none

/-- Next auto-increment primary key of a table with the given keys. -/
def nextID (ids : List Nat) : Nat := ids.foldl max 0 + 1

/-- Source `DB.Create(&newUser)`: refused when the `unique` username is taken. -/
def createUser (users : List User) (username password : String) : List User :=
  if users.any (fun u => u.Username == username) then users
  else users ++ [⟨nextID (users.map User.ID), username, password, false⟩]

/-- Source `DB.Create(&newGroup)`: refused when the `unique` name is taken. -/
def createGroupRow (groups : List Group) (name : String) : List Group :=
  if groups.any (fun g => g.Name == name) then groups
  else groups ++ [⟨nextID (groups.map Group.ID), name⟩]

/-- Source `DB.Create(&GroupMember{UserID, GroupID})`: no constraint but the key. -/
def createGroupMember (rows : List GroupMember) (userID groupID : Nat) :
    List GroupMember :=
  rows ++ [⟨nextID (rows.map GroupMember.ID), userID, groupID⟩]

/-- Source `DB.Model(&user).Update("online", b)` for a record with primary key `id`. -/
def updateOnline (users : List User) (id : Nat) (b : Bool) : List User :=
  if id = 0 then users
  else users.map (fun u => if u.ID = id then { u with Online := b } else u)

/-- Source `DB.Delete(&groupMember)` for a record with primary key `id`. -/
def deleteGroupMember (rows : List GroupMember) (id : Nat) : List GroupMember :=
  if id = 0 then rows else rows.filter (fun m => m.ID != id)

/-- The scalar subquery `(SELECT id FROM users WHERE username = ?)`: a value only
when exactly one row matches (no row gives NULL, several rows are an error). -/
def userIDSubquery (users : List User) (username : String) : Option Nat :=
  match users.filter (fun u => u.Username == username) with
  | [u] => some u.ID
  | _ => none

/-! ## `strings.Fields` -/

/-- The runes `unicode.IsSpace` accepts. -/
def isSpace (c : Char) : Bool :=
  let n := c.toNat
  (9 ≤ n && n ≤ 13) || n = 32 || n = 0x85 || n = 0xA0 || n = 0x1680 ||
  (0x2000 ≤ n && n ≤ 0x200a) || n = 0x2028 || n = 0x2029 || n = 0x202f ||
  n = 0x205f || n = 0x3000

/-- Splitting loop of `strings.Fields`; `cur` is the current field, reversed. -/
def fieldsFrom : List Char → List Char → List String
  | [], cur => if cur.isEmpty then [] else [String.mk cur.reverse]
  | c :: cs, cur =>
    if isSpace c then
      if cur.isEmpty then fieldsFrom cs [] else String.mk cur.reverse :: fieldsFrom cs []
    else fieldsFrom cs (c :: cur)

/-- Source `strings.Fields(message)`. -/
def Fields (message : String) : List String := fieldsFrom message.data []

/-! ## Command handlers (`server/server.go`) -/

/-- The body of `for client := range clients { client.Write(text) }`. -/
def writeToAll (s : State) (text : String) : State :=
  s.clients.foldl (fun acc e => Write acc e.1 text) s

/-- Source `broadcastSystemMessage` (server.go 231-243): produce on topic `system`, then
take the mutex, write to every registry entry, release. -/
def broadcastSystemMessage (s : State) (message : String) : Outcome :=
  let systemMessage := "🔔 System: " ++ message ++ "\n"
  (SendMessage s "system" systemMessage).bind fun s =>
  (Lock s).bind fun s =>
  let s := writeToAll s systemMessage
  Unlock s

/-- Source `registerUser` (server.go 61-82).  The first pattern is `len(parts) >= 3`. -/
def registerUser (H : Hasher) (s : State) (conn : Conn) (parts : List String) : Outcome :=
  match parts with
  | _ :: username :: password :: _ =>
    match First User.ID (fun u => u.Username == username) s.users with
    | some _ => .returned (Write s conn "Username already taken\n")
    | none =>
      let hashedPassword := H.GenerateFromPassword password
      let s := { s with users := createUser s.users username hashedPassword }
      .returned (Write s conn
        "Registration successful! Use /login <username> <password> to login.\n")
  | _ => .returned (Write s conn "Usage: /register <username> <password>\n")

/-- Source `loginUser` (server.go 84-116).  The first pattern is `len(parts) == 3`.  The
mutex is released before the store update and the system broadcast. -/
def loginUser (H : Hasher) (s : State) (conn : Conn) (parts : List String) : Outcome :=
  match parts with
  | [_, username, password] =>
    match First User.ID (fun u => u.Username == username) s.users with
    | none => .returned (Write s conn "Invalid username or password\n")
    | some user =>
      if H.CompareHashAndPassword user.Password password then
        (Lock s).bind fun s =>
        let s := { s with clients := clientsSet s.clients conn username }
        (Unlock s).bind fun s =>
        let s := { s with users := updateOnline s.users user.ID true }
        let s := Write s conn "Login successful! You can now chat.\n"
        broadcastSystemMessage s ("🟢 " ++ username ++ " has joined the chat")
      else .returned (Write s conn "Invalid username or password\n")
  | _ => .returned (Write s conn "Usage: /login <username> <password>\n")

/-- Source `logoutUser` (server.go 118-135).  `broadcastSystemMessage` is called between
`Lock` and `Unlock`.  A user record that does not load keeps key zero, for
which the update is refused. -/
def logoutUser (s : State) (conn : Conn) : Outcome :=
  (Lock s).bind fun s =>
  (match s.clients.lookup conn with
    | some username =>
      let userID :=
        match First User.ID (fun u => u.Username == username) s.users with
        | some user => user.ID
        | none => 0
      let s := { s with users := updateOnline s.users userID false }
      let s := { s with clients := clientsDelete s.clients conn }
      broadcastSystemMessage s ("🔴 " ++ username ++ " has left the chat")
    | none => .returned s).bind fun s =>
  (Unlock s).bind fun s =>
  .returned (Write s conn "Logged out successfully\n")

/-- The text of `showHelp` (server.go 138-151). -/
def helpText : String :=
  "Available Commands:\n" ++
  "/help                          - Show this help message\n" ++
  "/register <username> <password> - Create a new account\n" ++
  "/login <username> <password>    - Login to your account\n" ++
  "/logout                        - Logout from current session\n" ++
  "/list_user                     - Show online users\n" ++
  "/list_groups                   - Show all available groups\n" ++
  "/pm <username> <message>       - Send private message\n" ++
  "/broadcast <message>           - Send message to all users\n" ++
  "/group_create <group_name>     - Create a new group\n" ++
  "/group_join <group_name>       - Join an existing group\n" ++
  "/group_leave <group_name>      - Leave a group\n" ++
  "/group_msg <group_name> <msg>  - Send message to group\n"

/-- Source `showHelp` (server.go 137-153). -/
def showHelp (s : State) (conn : Conn) : Outcome :=
  .returned (Write s conn helpText)

/-- Source `listUsers` (server.go 156-165): the accounts flagged online in the store. -/
def listUsers (s : State) (conn : Conn) : Outcome :=
  let users := s.users.filter (fun u => u.Online)
  let response := users.foldl (fun r user => r ++ "- " ++ user.Username ++ "\n") "Online Users:\n"
  .returned (Write s conn response)

/-- Source `listGroups` (server.go 167-184): every group with its number of rows. -/
def listGroups (s : State) (conn : Conn) : Outcome :=
  if s.groups.isEmpty then .returned (Write s conn "No groups available\n")
  else
    let response := s.groups.foldl
      (fun r group =>
        let memberCount := (s.groupMembers.filter (fun m => m.GroupID == group.ID)).length
        r ++ "- " ++ group.Name ++ " (Members: " ++ Nat.repr memberCount ++ ")\n")
      "Available Groups:\n"
    .returned (Write s conn response)

/-- Source `privateMessage` (server.go 187-204).  The first pattern is `len(parts) >= 3`;
the loop stops at the first entry bound to the recipient. -/
def privateMessage (s : State) (conn : Conn) (parts : List String) : Outcome :=
  match parts with
  | _ :: recipient :: m :: ms =>
    let message := " ".intercalate (m :: ms)
    (Lock s).bind fun s =>
    match s.clients.find? (fun e => e.2 == recipient) with
    | some (client, _) =>
      let s := Write s client ("Private from " ++ clientsAt s.clients conn ++ ": " ++ message ++ "\n")
      Unlock s
    | none =>
      (Unlock s).bind fun s =>
      .returned (Write s conn "User not found or offline\n")
  | _ => .returned (Write s conn "Usage: /pm <username> <message>\n")

/-- Source `broadcastMessage` (server.go 207-229).  The first pattern is
`len(parts) >= 2`. -/
def broadcastMessage (s : State) (conn : Conn) (parts : List String) : Outcome :=
  match parts with
  | _ :: m :: ms =>
    (Lock s).bind fun s =>
    let sender := clientsAt s.clients conn
    (Unlock s).bind fun s =>
    let message := " ".intercalate (m :: ms)
    let broadcastText := "📢 [" ++ sender ++ "]: " ++ message ++ "\n"
    (SendMessage s "broadcast" broadcastText).bind fun s =>
    (Lock s).bind fun s =>
    let s := writeToAll s broadcastText
    Unlock s
  | _ => .returned (Write s conn "Usage: /broadcast <message>\n")

/-- Source `createGroup` (server.go 246-269).  The first pattern is `len(parts) >= 2`. -/
def createGroup (s : State) (conn : Conn) (parts : List String) : Outcome :=
  match parts with
  | _ :: groupName :: _ =>
    match First Group.ID (fun g => g.Name == groupName) s.groups with
    | some _ => .returned (Write s conn "Group already exists\n")
    | none =>
      let s := { s with groups := createGroupRow s.groups groupName }
      (SendMessage s groupName ("Group created: " ++ groupName)).bind fun s =>
      .returned (Write s conn "Group created successfully\n")
  | _ => .returned (Write s conn "Usage: /group_create <group_name>\n")

/-- Source `joinGroup` (server.go 271-299).  The group is looked up before the registry;
the row is created without looking for an existing one. -/
def joinGroup (s : State) (conn : Conn) (parts : List String) : Outcome :=
  match parts with
  | _ :: groupName :: _ =>
    match First Group.ID (fun g => g.Name == groupName) s.groups with
    | none => .returned (Write s conn "Group not found\n")
    | some group =>
      match s.clients.lookup conn with
      | none => .returned (Write s conn "You must be logged in to join a group\n")
      | some username =>
        let userID :=
          match First User.ID (fun u => u.Username == username) s.users with
          | some user => user.ID
          | none => 0
        let s := { s with groupMembers := createGroupMember s.groupMembers userID group.ID }
        .returned (Write s conn "Joined group successfully\n")
  | _ => .returned (Write s conn "Usage: /group_join <group_name>\n")

/-- Source `leaveGroup` (server.go 301-325).  Records that do not load keep key zero;
`Delete` of a record with key zero is refused. -/
def leaveGroup (s : State) (conn : Conn) (parts : List String) : Outcome :=
  match parts with
  | _ :: groupName :: _ =>
    match s.clients.lookup conn with
    | none => .returned (Write s conn "You must be logged in to leave a group\n")
    | some username =>
      let groupID :=
        match First Group.ID (fun g => g.Name == groupName) s.groups with
        | some group => group.ID
        | none => 0
      let userID :=
        match First User.ID (fun u => u.Username == username) s.users with
        | some user => user.ID
        | none => 0
      let memberID :=
        match First GroupMember.ID (fun m => m.UserID == userID && m.GroupID == groupID)
            s.groupMembers with
        | some groupMember => groupMember.ID
        | none => 0
      let s := { s with groupMembers := deleteGroupMember s.groupMembers memberID }
      .returned (Write s conn "Left group successfully\n")
  | _ => .returned (Write s conn "Usage: /group_leave <group_name>\n")

/-- The test of the inner loop of `sendGroupMessage`: some row of `groupMembers`
names a user record that loads and carries `username`. -/
def memberMatches (users : List User) (groupMembers : List GroupMember)
    (username : String) : Bool :=
  groupMembers.any fun member =>
    match First User.ID (fun u => u.ID == member.UserID) users with
    | some user => user.Username == username
    | none => false

/-- Source `sendGroupMessage` (server.go 327-374).  The first pattern is
`len(parts) >= 3`.  The outer loop ranges over the registry, the inner loop
(`memberMatches`) over the rows of the group, with `break` after the write. -/
def sendGroupMessage (s : State) (conn : Conn) (parts : List String) : Outcome :=
  match parts with
  | _ :: groupName :: m :: ms =>
    let message := " ".intercalate (m :: ms)
    match First Group.ID (fun g => g.Name == groupName) s.groups with
    | none => .returned (Write s conn "Group not found\n")
    | some group =>
      match First GroupMember.ID
          (fun r => r.GroupID == group.ID &&
            userIDSubquery s.users (clientsAt s.clients conn) == some r.UserID)
          s.groupMembers with
      | none => .returned (Write s conn "You are not a member of this group\n")
      | some _ =>
        let formattedMessage :=
          "👥 [" ++ groupName ++ "][" ++ clientsAt s.clients conn ++ "]: " ++ message ++ "\n"
        (SendMessage s groupName formattedMessage).bind fun s =>
        let groupMembers := s.groupMembers.filter (fun r => r.GroupID == group.ID)
        (Lock s).bind fun s =>
        let s := s.clients.foldl
          (fun acc e =>
            if memberMatches s.users groupMembers e.2 then Write acc e.1 formattedMessage
            else acc)
          s
        (Unlock s).bind fun s =>
        .returned (Write s conn "Message sent to group\n")
  | _ => .returned (Write s conn "Usage: /group_msg <group_name> <message>\n")

/-- Source `HandleCommand` (server.go 23-58). -/
def HandleCommand (H : Hasher) (s : State) (conn : Conn) (message : String) : Outcome :=
  match Fields message with
  | [] => .returned s
  | command :: args =>
    let parts := command :: args
    if command = "/help" then showHelp s conn
    else if command = "/register" then registerUser H s conn parts
    else if command = "/login" then loginUser H s conn parts
    else if command = "/logout" then logoutUser s conn
    else if command = "/list_user" then listUsers s conn
    else if command = "/list_groups" then listGroups s conn
    else if command = "/pm" then privateMessage s conn parts
    else if command = "/broadcast" then broadcastMessage s conn parts
    else if command = "/group_create" then createGroup s conn parts
    else if command = "/group_join" then joinGroup s conn parts
    else if command = "/group_leave" then leaveGroup s conn parts
    else if command = "/group_msg" then sendGroupMessage s conn parts
    else .returned (Write s conn "Unknown command. Type /help for available commands.\n")

/-! ## The connection task (`main.go`) -/

/-- The loop of `handleClient`.  `reads` are the successful results of
`conn.Read`, in order; the read after the last one fails.  On that failure the
function returns and the deferred `conn.Close()` runs. -/
def handleClient (H : Hasher) (s : State) (conn : Conn) : List String → Outcome
  | [] => .returned { s with closed := s.closed ++ [conn] }
  | message :: reads =>
    (HandleCommand H s conn message).bind fun s => handleClient H s conn reads

/-! ## Running several commands -/

/-- The state left behind by one command, whether its handler returned or not. -/
def step (H : Hasher) (s : State) (c : Conn × String) : State :=
  (HandleCommand H s c.1 c.2).state

/-- The state left behind by a sequence of commands, each given with the
connection it arrives on. -/
def run (H : Hasher) (s : State) (cmds : List (Conn × String)) : State :=
  cmds.foldl (step H) s

/-- A server that has just started: nobody connected, empty tables. -/
def initial : State :=
  { clients := [], clientsMutex := false, users := [], groups := [], groupMembers := [],
    produced := [], writes := [], closed := [] }

/-- A stand-in for bcrypt used only to evaluate concrete scenarios. -/
def toyHasher : Hasher :=
  { GenerateFromPassword := fun p => "#" ++ p
    CompareHashAndPassword := fun h p => h == "#" ++ p }

/-! ## Vocabulary of the statements -/

/-- The usage line each handler writes when the argument count is wrong. -/
def usageLine (verb : String) : String :=
  if verb = "/register" then "Usage: /register <username> <password>\n"
  else if verb = "/login" then "Usage: /login <username> <password>\n"
  else if verb = "/pm" then "Usage: /pm <username> <message>\n"
  else if verb = "/broadcast" then "Usage: /broadcast <message>\n"
  else if verb = "/group_create" then "Usage: /group_create <group_name>\n"
  else if verb = "/group_join" then "Usage: /group_join <group_name>\n"
  else if verb = "/group_leave" then "Usage: /group_leave <group_name>\n"
  else if verb = "/group_msg" then "Usage: /group_msg <group_name> <message>\n"
  else ""

/-- The user called `username` has a membership row in the group with key `groupID`. -/
def IsMember (s : State) (username : String) (groupID : Nat) : Prop :=
  ∃ r ∈ s.groupMembers, r.GroupID = groupID ∧
    ∃ u ∈ s.users, u.ID = r.UserID ∧ u.Username = username

/-- Three users online, of whom `A` and `B` belong to group `G`; `B` has two
membership rows. -/
def scopingState : State :=
  { initial with
    clients := [(0, "A"), (1, "B"), (2, "C")]
    users := [⟨1, "A", "", true⟩, ⟨2, "B", "", true⟩, ⟨3, "C", "", true⟩]
    groups := [⟨1, "G"⟩]
    groupMembers := [⟨1, 1, 1⟩, ⟨2, 2, 1⟩, ⟨3, 2, 1⟩] }

/-- Account `alice` registered and logged in on connection 0. -/
def aliceOnline : State :=
  { initial with
    clients := [(0, "alice")]
    users := [⟨1, "alice", "#pw1", true⟩] }

/-- Group `team` exists, nobody is logged in. -/
def teamOnly : State :=
  { initial with groups := [⟨1, "team"⟩] }

/-- The commands of `reads`, run one after the other on `conn` as long as each
handler returns. -/
def serve (H : Hasher) (s : State) (conn : Conn) : List String → Outcome
  | [] => .returned s
  | message :: reads => (HandleCommand H s conn message).bind fun s => serve H s conn reads

/-- The strings of a list, one after the other. -/
def concatLines : List String → String
  | [] => ""
  | x :: xs => x ++ concatLines xs

/-- The listing `/list_user` answers with: a header, then one line per account
flagged online in the store. -/
def onlineUsersText (s : State) : String :=
  "Online Users:\n" ++
    concatLines ((s.users.filter (fun u => u.Online)).map (fun u => "- " ++ u.Username ++ "\n"))

/-- The listing `/list_groups` answers with: a fixed line when there is no group,
else a header, then one line per group with its number of membership rows. -/
def groupsText (s : State) : String :=
  if s.groups.isEmpty then "No groups available\n"
  else
    "Available Groups:\n" ++
      concatLines (s.groups.map (fun g =>
        "- " ++ g.Name ++ " (Members: " ++
          Nat.repr (s.groupMembers.countP (fun r => r.GroupID == g.ID)) ++ ")\n"))

/-- A state the server reaches by itself: `A`, `B`, `C` are online, `A` and `B`
belong to group `G`, and a fourth user has logged in and out again. -/
def afterLogout : State :=
  run toyHasher initial
    [(0, "/register A pw"), (1, "/register B pw"), (2, "/register C pw"),
     (3, "/register D pw"),
     (0, "/login A pw"), (1, "/login B pw"), (2, "/login C pw"), (3, "/login D pw"),
     (0, "/group_create G"), (0, "/group_join G"), (1, "/group_join G"),
     (3, "/logout")]

/-! ## Lemmas about the model -/

theorem SendMessage_ok (s : State) (topic message : String) (h : cStrlen topic ≤ 512) :
    SendMessage s topic message
      = .returned { s with produced := s.produced ++ [(topic, message)] } := by
  simp [SendMessage, Nat.not_lt.mpr h]

theorem SendMessage_long (s : State) (topic message : String) (h : 512 < cStrlen topic) :
    SendMessage s topic message = .panicked s := by
  simp [SendMessage, h]

theorem cStrlen_system : cStrlen "system" ≤ 512 := by decide

theorem cStrlen_broadcast : cStrlen "broadcast" ≤ 512 := by decide

theorem foldl_Write (text : String) (l : List (Conn × String)) (s : State) :
    l.foldl (fun acc e => Write acc e.1 text) s
      = { s with writes := s.writes ++ l.map (fun e => (e.1, text)) } := by
  induction l generalizing s with
  | nil => simp
  | cons e l ih =>
    rw [List.foldl_cons, ih]
    simp [Write]

theorem writeToAll_eq (s : State) (text : String) :
    writeToAll s text = { s with writes := s.writes ++ s.clients.map (fun e => (e.1, text)) } :=
  foldl_Write text s.clients s

theorem pick_ne_none {α : Type} (key : α → Nat) (l : List α) (b : α) :
    l.foldl (fun best r => match best with
      | none => some r
      | some b => if key r < key b then some r else some b) (some b) ≠ none := by
  induction l generalizing b with
  | nil => simp
  | cons x l ih =>
    rw [List.foldl_cons]
    by_cases h : key x < key b <;> simp [h, ih]

theorem pick_mem {α : Type} (key : α → Nat) (l : List α) (b x : α)
    (h : l.foldl (fun best r => match best with
      | none => some r
      | some b => if key r < key b then some r else some b) (some b) = some x) :
    x = b ∨ x ∈ l := by
  induction l generalizing b with
  | nil => simp at h; exact Or.inl h.symm
  | cons y l ih =>
    rw [List.foldl_cons] at h
    by_cases hk : key y < key b
    · simp only [hk, if_true] at h
      rcases ih y h with rfl | hm
      · exact Or.inr (List.mem_cons_self _ _)
      · exact Or.inr (List.mem_cons_of_mem _ hm)
    · simp only [hk, if_false] at h
      rcases ih b h with rfl | hm
      · exact Or.inl rfl
      · exact Or.inr (List.mem_cons_of_mem _ hm)

theorem First_eq_none_iff {α : Type} (key : α → Nat) (p : α → Bool) (rows : List α) :
    First key p rows = none ↔ ∀ r ∈ rows, p r = false := by
  unfold First
  cases hl : rows.filter p with
  | nil =>
    simp only [List.foldl_nil, true_iff]
    intro r hr
    by_contra hp
    have : r ∈ rows.filter p := List.mem_filter.mpr ⟨hr, by simpa using hp⟩
    rw [hl] at this
    exact absurd this (List.not_mem_nil _)
  | cons x l =>
    rw [List.foldl_cons]
    constructor
    · intro h
      exact absurd h (pick_ne_none key l x)
    · intro h
      have hx : x ∈ rows.filter p := by rw [hl]; exact List.mem_cons_self _ _
      have := List.mem_filter.mp hx
      rw [h x this.1] at this
      exact absurd this.2 (by simp)

theorem First_some {α : Type} (key : α → Nat) (p : α → Bool) (rows : List α) (x : α)
    (h : First key p rows = some x) : x ∈ rows ∧ p x = true := by
  unfold First at h
  cases hl : rows.filter p with
  | nil => rw [hl] at h; simp at h
  | cons y l =>
    rw [hl, List.foldl_cons] at h
    have hx : x ∈ rows.filter p := by
      rw [hl]
      rcases pick_mem key l y x h with rfl | hm
      · exact List.mem_cons_self _ _
      · exact List.mem_cons_of_mem _ hm
    exact List.mem_filter.mp hx

theorem First_isSome_of_mem {α : Type} (key : α → Nat) (p : α → Bool) (rows : List α) (x : α)
    (hx : x ∈ rows) (hp : p x = true) : ∃ y, First key p rows = some y := by
  cases h : First key p rows with
  | some y => exact ⟨y, rfl⟩
  | none =>
    rw [First_eq_none_iff] at h
    rw [h x hx] at hp
    exact absurd hp (by simp)

theorem First_unique {α : Type} (key : α → Nat) (p : α → Bool) (rows : List α) (x : α)
    (hx : x ∈ rows) (hp : p x = true) (huniq : ∀ y ∈ rows, p y = true → y = x) :
    First key p rows = some x := by
  obtain ⟨y, hy⟩ := First_isSome_of_mem key p rows x hx hp
  have := First_some key p rows y hy
  rw [hy, huniq y this.1 this.2]

theorem foldl_Write_if (text : String) (c : Conn × String → Bool) (l : List (Conn × String))
    (s : State) :
    l.foldl (fun acc e => if c e then Write acc e.1 text else acc) s
      = { s with writes := s.writes ++ (l.filter c).map (fun e => (e.1, text)) } := by
  induction l generalizing s with
  | nil => simp
  | cons e l ih =>
    rw [List.foldl_cons, ih]
    by_cases h : c e <;> simp [h, Write]

theorem filter_eq_singleton {α β : Type} [DecidableEq β] (f : α → β) (l : List α) (x : α)
    (hnd : (l.map f).Nodup) (hx : x ∈ l) :
    l.filter (fun y => f y == f x) = [x] := by
  induction l with
  | nil => exact absurd hx (List.not_mem_nil _)
  | cons y l ih =>
    rw [List.map_cons, List.nodup_cons] at hnd
    rcases List.mem_cons.mp hx with rfl | hm
    · have : l.filter (fun y => f y == f x) = [] := by
        rw [List.filter_eq_nil_iff]
        intro z hz hzx
        exact hnd.1 (by
          have : f z = f x := by simpa using hzx
          rw [← this]; exact List.mem_map_of_mem f hz)
      simp [List.filter_cons, this]
    · have hne : f y ≠ f x := by
        intro h
        exact hnd.1 (by rw [h]; exact List.mem_map_of_mem f hm)
      simp [List.filter_cons, hne, ih hnd.2 hm]

theorem First_by_id (users : List User) (hid : (users.map User.ID).Nodup) (i : Nat) (u : User) :
    First User.ID (fun v => v.ID == i) users = some u ↔ u ∈ users ∧ u.ID = i := by
  constructor
  · intro h
    have := First_some _ _ _ _ h
    exact ⟨this.1, by simpa using this.2⟩
  · rintro ⟨hu, rfl⟩
    apply First_unique _ _ _ _ hu (by simp)
    intro y hy hp
    have h1 := filter_eq_singleton User.ID users u hid hu
    have : y ∈ users.filter (fun y => y.ID == u.ID) := List.mem_filter.mpr ⟨hy, hp⟩
    rw [h1] at this
    simpa using this

theorem memberMatches_iff (s : State) (hid : (s.users.map User.ID).Nodup) (groupID : Nat)
    (username : String) :
    memberMatches s.users (s.groupMembers.filter (fun r => r.GroupID == groupID)) username = true
      ↔ IsMember s username groupID := by
  unfold memberMatches IsMember
  rw [List.any_eq_true]
  constructor
  · rintro ⟨r, hr, h⟩
    rw [List.mem_filter] at hr
    refine ⟨r, hr.1, by simpa using hr.2, ?_⟩
    cases hF : First User.ID (fun u => u.ID == r.UserID) s.users with
    | none => rw [hF] at h; simp at h
    | some u =>
      rw [hF] at h
      have := (First_by_id s.users hid r.UserID u).mp hF
      exact ⟨u, this.1, this.2, by simpa using h⟩
  · rintro ⟨r, hr, hg, u, hu, hur, hname⟩
    refine ⟨r, List.mem_filter.mpr ⟨hr, by simpa using hg⟩, ?_⟩
    rw [(First_by_id s.users hid r.UserID u).mpr ⟨hu, hur⟩]
    simpa using hname

theorem userIDSubquery_of_mem (users : List User) (hname : (users.map User.Username).Nodup)
    (u : User) (hu : u ∈ users) : userIDSubquery users u.Username = some u.ID := by
  unfold userIDSubquery
  rw [filter_eq_singleton User.Username users u hname hu]

theorem lookup_mem (m : List (Conn × String)) (c : Conn) (u : String)
    (h : m.lookup c = some u) : (c, u) ∈ m := by
  induction m with
  | nil => simp at h
  | cons e m ih =>
    obtain ⟨k, v⟩ := e
    by_cases hk : c = k
    · subst hk
      simp [List.lookup_cons] at h
      subst h
      exact List.mem_cons_self _ _
    · have : (c == k) = false := by simpa using hk
      rw [List.lookup_cons, this] at h
      exact List.mem_cons_of_mem _ (ih h)

theorem fanout_mem_iff (text : String) (c : Conn × String → Bool) (l : List (Conn × String))
    (k : Conn) (t : String) :
    (k, t) ∈ (l.filter c).map (fun e => (e.1, text))
      ↔ t = text ∧ ∃ u, (k, u) ∈ l ∧ c (k, u) = true := by
  simp only [List.mem_map, List.mem_filter, Prod.mk.injEq]
  constructor
  · rintro ⟨⟨k1, u⟩, ⟨hm, hc⟩, rfl, rfl⟩
    exact ⟨rfl, u, hm, hc⟩
  · rintro ⟨rfl, u, hm, hc⟩
    exact ⟨(k, u), ⟨hm, hc⟩, rfl, rfl⟩

theorem keys_countP_le_one (l : List (Conn × String)) (hmap : (l.map Prod.fst).Nodup)
    (k : Conn) : l.countP (fun e => e.1 == k) ≤ 1 := by
  induction l with
  | nil => simp
  | cons e l ih =>
    rw [List.map_cons, List.nodup_cons] at hmap
    rw [List.countP_cons]
    by_cases h : e.1 = k
    · have hz : l.countP (fun e => e.1 == k) = 0 := by
        rw [List.countP_eq_zero]
        intro a ha hak
        apply hmap.1
        have : a.1 = e.1 := by rw [h]; simpa using hak
        rw [← this]
        exact List.mem_map_of_mem Prod.fst ha
      simp [hz, h]
    · have := ih hmap.2
      simp [h, this]

theorem fanout_countP (text : String) (c : Conn × String → Bool) (l : List (Conn × String))
    (hmap : (l.map Prod.fst).Nodup) (k : Conn) (u : String) (hm : (k, u) ∈ l)
    (hc : c (k, u) = true) :
    ((l.filter c).map (fun e => (e.1, text))).countP (fun e => e.1 == k) = 1 := by
  rw [List.countP_map, List.countP_filter]
  apply Nat.le_antisymm
  · refine Nat.le_trans ?_ (keys_countP_le_one l hmap k)
    apply List.countP_mono_left
    intro a _ ha
    simp only [Function.comp, Bool.and_eq_true] at ha
    exact ha.1
  · apply List.countP_pos_iff.mpr
    exact ⟨(k, u), hm, by simp [hc]⟩

theorem HandleCommand_dispatch (H : Hasher) (s : State) (conn : Conn) (message verb : String)
    (args : List String) (hf : Fields message = verb :: args) :
    HandleCommand H s conn message =
      if verb = "/help" then showHelp s conn
      else if verb = "/register" then registerUser H s conn (verb :: args)
      else if verb = "/login" then loginUser H s conn (verb :: args)
      else if verb = "/logout" then logoutUser s conn
      else if verb = "/list_user" then listUsers s conn
      else if verb = "/list_groups" then listGroups s conn
      else if verb = "/pm" then privateMessage s conn (verb :: args)
      else if verb = "/broadcast" then broadcastMessage s conn (verb :: args)
      else if verb = "/group_create" then createGroup s conn (verb :: args)
      else if verb = "/group_join" then joinGroup s conn (verb :: args)
      else if verb = "/group_leave" then leaveGroup s conn (verb :: args)
      else if verb = "/group_msg" then sendGroupMessage s conn (verb :: args)
      else .returned (Write s conn "Unknown command. Type /help for available commands.\n") := by
  unfold HandleCommand
  rw [hf]

theorem find_some_of_mem (m : List (Conn × String)) (c : Conn) (recipient : String)
    (h : (c, recipient) ∈ m) :
    ∃ c0 u0, m.find? (fun e => e.2 == recipient) = some (c0, u0) ∧ (c0, recipient) ∈ m := by
  cases hfind : m.find? (fun e => e.2 == recipient) with
  | none =>
    rw [List.find?_eq_none] at hfind
    exact absurd (by simp) (hfind (c, recipient) h)
  | some e =>
    obtain ⟨c0, u0⟩ := e
    have h1 := List.find?_some hfind
    have h2 := List.mem_of_find?_eq_some hfind
    have : u0 = recipient := by simpa using h1
    subst this
    exact ⟨c0, u0, rfl, h2⟩

theorem find_none_of_not_mem (m : List (Conn × String)) (recipient : String)
    (h : ∀ c, (c, recipient) ∉ m) : m.find? (fun e => e.2 == recipient) = none := by
  rw [List.find?_eq_none]
  rintro ⟨c, u⟩ hm hu
  have : u = recipient := by simpa using hu
  subst this
  exact h c hm

theorem nextID_append (ids : List Nat) : nextID (ids ++ [nextID ids]) = nextID ids + 1 := by
  simp [nextID, List.foldl_append]

theorem joinGroup_appends (s : State) (conn : Conn) (groupName username : String)
    (rest : List String) (verb : String) (group : Group) (user : User)
    (hg : First Group.ID (fun g => g.Name == groupName) s.groups = some group)
    (hconn : s.clients.lookup conn = some username)
    (hu : First User.ID (fun u => u.Username == username) s.users = some user) :
    joinGroup s conn (verb :: groupName :: rest) = .returned
      { s with
        groupMembers := s.groupMembers ++
          [⟨nextID (s.groupMembers.map GroupMember.ID), user.ID, group.ID⟩]
        writes := s.writes ++ [(conn, "Joined group successfully\n")] } := by
  simp [joinGroup, hg, hconn, hu, createGroupMember, Write]

theorem handleClient_eq_serve (H : Hasher) (conn : Conn) (reads : List String) (s : State) :
    handleClient H s conn reads
      = (serve H s conn reads).bind fun t => .returned { t with closed := t.closed ++ [conn] } := by
  induction reads generalizing s with
  | nil => rfl
  | cons message reads ih =>
    simp only [handleClient, serve]
    cases HandleCommand H s conn message with
    | returned t => simp only [Outcome.bind]; exact ih t
    | blocked t => rfl
    | fatal t => rfl
    | panicked t => rfl

theorem le_foldl_max (ids : List Nat) (a : Nat) :
    a ≤ ids.foldl max a ∧ ∀ i ∈ ids, i ≤ ids.foldl max a := by
  induction ids generalizing a with
  | nil => simp
  | cons x ids ih =>
    rw [List.foldl_cons]
    have h := ih (max a x)
    refine ⟨Nat.le_trans (Nat.le_max_left a x) h.1, ?_⟩
    intro i hi
    rcases List.mem_cons.mp hi with rfl | hm
    · exact Nat.le_trans (Nat.le_max_right a i) h.1
    · exact h.2 i hm

theorem lt_nextID (ids : List Nat) (i : Nat) (hi : i ∈ ids) : i < nextID ids :=
  Nat.lt_succ_of_le ((le_foldl_max ids 0).2 i hi)

theorem nextID_not_mem (ids : List Nat) : nextID ids ∉ ids :=
  fun h => Nat.lt_irrefl _ (lt_nextID ids _ h)

theorem nextID_ne_zero (ids : List Nat) : nextID ids ≠ 0 := Nat.succ_ne_zero _

theorem createUser_new (us : List User) (name pw : String)
    (h : First User.ID (fun u => u.Username == name) us = none) :
    createUser us name pw = us ++ [⟨nextID (us.map User.ID), name, pw, false⟩] ∧
      ∀ u ∈ us, u.Username ≠ name := by
  rw [First_eq_none_iff] at h
  have hne : ∀ u ∈ us, u.Username ≠ name := fun u hu => by simpa using h u hu
  refine ⟨?_, hne⟩
  unfold createUser
  have : us.any (fun u => u.Username == name) = false := by
    rw [List.any_eq_false]
    intro u hu
    simpa using hne u hu
  simp [this]

theorem registerUser_ok (H : Hasher) (s : State) (conn : Conn) (verb name pw : String)
    (rest : List String) (hnew : ∀ u ∈ s.users, u.Username ≠ name) :
    registerUser H s conn (verb :: name :: pw :: rest) = .returned
      { s with
        users := s.users ++
          [⟨nextID (s.users.map User.ID), name, H.GenerateFromPassword pw, false⟩]
        writes := s.writes ++
          [(conn, "Registration successful! Use /login <username> <password> to login.\n")] } := by
  have hF : First User.ID (fun u => u.Username == name) s.users = none := by
    rw [First_eq_none_iff]
    intro u hu
    simpa using hnew u hu
  simp [registerUser, hF, (createUser_new s.users name _ hF).1, Write]

theorem loginUser_ok (H : Hasher) (s : State) (conn : Conn) (verb name pw : String)
    (user : User) (hfree : s.clientsMutex = false)
    (hF : First User.ID (fun u => u.Username == name) s.users = some user)
    (hpw : H.CompareHashAndPassword user.Password pw = true) :
    loginUser H s conn [verb, name, pw] = .returned
      { s with
        clients := clientsSet s.clients conn name
        users := updateOnline s.users user.ID true
        produced := s.produced ++
          [("system", "🔔 System: " ++ ("🟢 " ++ name ++ " has joined the chat") ++ "\n")]
        writes := s.writes ++ [(conn, "Login successful! You can now chat.\n")] ++
          (clientsSet s.clients conn name).map
            (fun e => (e.1, "🔔 System: " ++ ("🟢 " ++ name ++ " has joined the chat") ++ "\n")) } := by
  simp [loginUser, hF, hpw, Lock, hfree, Outcome.bind, Unlock, broadcastSystemMessage,
    SendMessage_ok _ _ _ cStrlen_system, writeToAll_eq, Write]

theorem createGroup_ok (s : State) (conn : Conn) (verb name : String) (rest : List String)
    (hlen : cStrlen name ≤ 512)
    (hnew : ∀ g ∈ s.groups, g.Name ≠ name) :
    createGroup s conn (verb :: name :: rest) = .returned
      { s with
        groups := s.groups ++ [⟨nextID (s.groups.map Group.ID), name⟩]
        produced := s.produced ++ [(name, "Group created: " ++ name)]
        writes := s.writes ++ [(conn, "Group created successfully\n")] } := by
  have hF : First Group.ID (fun g => g.Name == name) s.groups = none := by
    rw [First_eq_none_iff]
    intro g hg
    simpa using hnew g hg
  have hany : s.groups.any (fun g => g.Name == name) = false := by
    rw [List.any_eq_false]
    intro g hg
    simpa using hnew g hg
  simp [createGroup, hF, createGroupRow, hany, SendMessage_ok _ _ _ hlen, Outcome.bind, Write]

theorem sendGroupMessage_ok (s : State) (conn : Conn) (verb groupName m : String)
    (ms : List String) (group : Group) (r0 : GroupMember)
    (hfree : s.clientsMutex = false)
    (hlen : cStrlen groupName ≤ 512)
    (hg : First Group.ID (fun g => g.Name == groupName) s.groups = some group)
    (hr0 : First GroupMember.ID
      (fun r => r.GroupID == group.ID &&
        userIDSubquery s.users (clientsAt s.clients conn) == some r.UserID)
      s.groupMembers = some r0) :
    sendGroupMessage s conn (verb :: groupName :: m :: ms) = .returned
      { s with
        produced := s.produced ++
          [(groupName, "👥 [" ++ groupName ++ "][" ++ clientsAt s.clients conn ++ "]: " ++
            " ".intercalate (m :: ms) ++ "\n")]
        writes := s.writes ++
          (s.clients.filter (fun e => memberMatches s.users
            (s.groupMembers.filter (fun x => x.GroupID == group.ID)) e.2)).map
            (fun e => (e.1, "👥 [" ++ groupName ++ "][" ++ clientsAt s.clients conn ++ "]: " ++
              " ".intercalate (m :: ms) ++ "\n")) ++
          [(conn, "Message sent to group\n")] } := by
  simp [sendGroupMessage, hg, hr0, SendMessage_ok _ _ _ hlen, Lock, hfree, Outcome.bind,
    Unlock, foldl_Write_if]
  simp [Write]

theorem updateOnline_fresh (us : List User) (i : Nat) (n p : String) (o b : Bool)
    (hi : i ≠ 0) (hfresh : ∀ u ∈ us, u.ID ≠ i) :
    updateOnline (us ++ [⟨i, n, p, o⟩]) i b = us ++ [⟨i, n, p, b⟩] := by
  simp only [updateOnline, hi, if_false, List.map_append, List.map_cons, List.map_nil, if_true]
  congr 1
  conv_rhs => rw [← List.map_id us]
  apply List.map_congr_left
  intro u hu
  simp [hfresh u hu]

theorem lookup_map_set (m : List (Conn × String)) (c : Conn) (name : String)
    (h : m.any (fun e => e.1 == c) = true) :
    (m.map (fun e => if e.1 == c then (c, name) else e)).lookup c = some name := by
  induction m with
  | nil => simp at h
  | cons e m ih =>
    obtain ⟨k, v⟩ := e
    by_cases hk : k = c
    · subst hk
      simp [List.lookup_cons]
    · have hk2 : (c == k) = false := by simpa using fun h : c = k => hk h.symm
      have hkc : (k == c) = false := by simpa using hk
      rw [List.any_cons] at h
      simp only [hkc, Bool.false_or] at h
      rw [List.map_cons]
      simp only [hkc, Bool.false_eq_true, if_false, List.lookup_cons, hk2]
      exact ih h

theorem lookup_append_new (m : List (Conn × String)) (c : Conn) (name : String)
    (h : m.any (fun e => e.1 == c) = false) :
    (m ++ [(c, name)]).lookup c = some name := by
  induction m with
  | nil => simp [List.lookup_cons]
  | cons e m ih =>
    obtain ⟨k, v⟩ := e
    rw [List.any_cons, Bool.or_eq_false_iff] at h
    have hk2 : (c == k) = false := by
      have : ¬ k = c := by simpa using h.1
      simpa using fun h : c = k => this h.symm
    rw [List.cons_append, List.lookup_cons, hk2]
    exact ih h.2

theorem lookup_clientsSet (m : List (Conn × String)) (c : Conn) (name : String) :
    (clientsSet m c name).lookup c = some name := by
  unfold clientsSet
  by_cases hany : m.any (fun e => e.1 == c) = true
  · rw [if_pos hany]
    exact lookup_map_set m c name hany
  · rw [if_neg hany]
    exact lookup_append_new m c name (Bool.eq_false_iff.mpr hany)

theorem end_to_end_scenario (H : Hasher) (s : State) (c : Conn)
    (hfree : s.clientsMutex = false)
    (hnoalice : ∀ u ∈ s.users, u.Username ≠ "alice")
    (hnoteam : ∀ g ∈ s.groups, g.Name ≠ "team")
    (hpw : H.CompareHashAndPassword (H.GenerateFromPassword "pw1") "pw1" = true) :
    serve H s c ["/register alice pw1", "/login alice pw1", "/group_create team",
        "/group_join team", "/group_msg team hi"] = .returned
      { s with
        clients := clientsSet s.clients c "alice"
        users := s.users ++
          [⟨nextID (s.users.map User.ID), "alice", H.GenerateFromPassword "pw1", true⟩]
        groups := s.groups ++ [⟨nextID (s.groups.map Group.ID), "team"⟩]
        groupMembers := s.groupMembers ++
          [⟨nextID (s.groupMembers.map GroupMember.ID), nextID (s.users.map User.ID),
            nextID (s.groups.map Group.ID)⟩]
        produced := s.produced ++
          [("system", "🔔 System: 🟢 alice has joined the chat\n"),
           ("team", "Group created: team"),
           ("team", "👥 [team][alice]: hi\n")]
        writes := s.writes ++
          ([(c, "Registration successful! Use /login <username> <password> to login.\n"),
           (c, "Login successful! You can now chat.\n")] ++
          (clientsSet s.clients c "alice").map
            (fun e => (e.1, "🔔 System: 🟢 alice has joined the chat\n")) ++
          [(c, "Group created successfully\n"), (c, "Joined group successfully\n")] ++
          ((clientsSet s.clients c "alice").filter (fun e => memberMatches
            (s.users ++
              [⟨nextID (s.users.map User.ID), "alice", H.GenerateFromPassword "pw1", true⟩])
            ((s.groupMembers ++
              [(⟨nextID (s.groupMembers.map GroupMember.ID), nextID (s.users.map User.ID),
                nextID (s.groups.map Group.ID)⟩ : GroupMember)]).filter
              (fun x => x.GroupID == nextID (s.groups.map Group.ID))) e.2)).map
            (fun e => (e.1, "👥 [team][alice]: hi\n")) ++
          [(c, "Message sent to group\n")]) } := by
  have hteam : cStrlen "team" ≤ 512 := by decide
  have hf1 : Fields "/register alice pw1" = ["/register", "alice", "pw1"] := by decide
  have hf2 : Fields "/login alice pw1" = ["/login", "alice", "pw1"] := by decide
  have hf3 : Fields "/group_create team" = ["/group_create", "team"] := by decide
  have hf4 : Fields "/group_join team" = ["/group_join", "team"] := by decide
  have hf5 : Fields "/group_msg team hi" = ["/group_msg", "team", "hi"] := by decide
  have huid0 : nextID (s.users.map User.ID) ≠ 0 := nextID_ne_zero _
  have hfreshid : ∀ u ∈ s.users, u.ID ≠ nextID (s.users.map User.ID) := fun u hu h =>
    nextID_not_mem (s.users.map User.ID) (h ▸ List.mem_map_of_mem User.ID hu)
  -- the account row after registration and after login
  have hF2 : First User.ID (fun u => u.Username == "alice")
      (s.users ++ [⟨nextID (s.users.map User.ID), "alice", H.GenerateFromPassword "pw1", false⟩])
      = some ⟨nextID (s.users.map User.ID), "alice", H.GenerateFromPassword "pw1", false⟩ := by
    apply First_unique _ _ _ _ (by simp) (by simp)
    intro y hy hp
    rcases List.mem_append.mp hy with hy | hy
    · exact absurd (by simpa using hp) (hnoalice y hy)
    · simpa using hy
  have hF4 : First User.ID (fun u => u.Username == "alice")
      (s.users ++ [⟨nextID (s.users.map User.ID), "alice", H.GenerateFromPassword "pw1", true⟩])
      = some ⟨nextID (s.users.map User.ID), "alice", H.GenerateFromPassword "pw1", true⟩ := by
    apply First_unique _ _ _ _ (by simp) (by simp)
    intro y hy hp
    rcases List.mem_append.mp hy with hy | hy
    · exact absurd (by simpa using hp) (hnoalice y hy)
    · simpa using hy
  have hFid : First User.ID (fun u => u.ID == nextID (s.users.map User.ID))
      (s.users ++ [⟨nextID (s.users.map User.ID), "alice", H.GenerateFromPassword "pw1", true⟩])
      = some ⟨nextID (s.users.map User.ID), "alice", H.GenerateFromPassword "pw1", true⟩ := by
    apply First_unique _ _ _ _ (by simp) (by simp)
    intro y hy hp
    rcases List.mem_append.mp hy with hy | hy
    · exact absurd (by simpa using hp) (hfreshid y hy)
    · simpa using hy
  have hsub : userIDSubquery
      (s.users ++ [⟨nextID (s.users.map User.ID), "alice", H.GenerateFromPassword "pw1", true⟩])
      "alice" = some (nextID (s.users.map User.ID)) := by
    have : (s.users ++ [(⟨nextID (s.users.map User.ID), "alice",
        H.GenerateFromPassword "pw1", true⟩ : User)]).filter (fun u => u.Username == "alice")
        = [⟨nextID (s.users.map User.ID), "alice", H.GenerateFromPassword "pw1", true⟩] := by
      rw [List.filter_append]
      have h0 : s.users.filter (fun u => u.Username == "alice") = [] := by
        rw [List.filter_eq_nil_iff]
        intro u hu
        simpa using hnoalice u hu
      simp [h0]
    simp [userIDSubquery, this]
  have hG : First Group.ID (fun g => g.Name == "team")
      (s.groups ++ [⟨nextID (s.groups.map Group.ID), "team"⟩])
      = some ⟨nextID (s.groups.map Group.ID), "team"⟩ := by
    apply First_unique _ _ _ _ (by simp) (by simp)
    intro y hy hp
    rcases List.mem_append.mp hy with hy | hy
    · exact absurd (by simpa using hp) (hnoteam y hy)
    · simpa using hy
  have hlook : (clientsSet s.clients c "alice").lookup c = some "alice" :=
    lookup_clientsSet _ _ _
  have hat : clientsAt (clientsSet s.clients c "alice") c = "alice" := by
    simp [clientsAt, hlook]
  simp only [serve]
  rw [HandleCommand_dispatch H s c _ _ _ hf1]
  simp only [String.reduceEq, ↓reduceIte]
  rw [registerUser_ok H s c _ _ _ _ hnoalice]
  simp only [Outcome.bind]
  rw [HandleCommand_dispatch H _ c _ _ _ hf2]
  simp only [String.reduceEq, ↓reduceIte]
  rw [loginUser_ok H _ c _ _ _ _ (by exact hfree) (by exact hF2) (by exact hpw)]
  simp only [Outcome.bind, updateOnline_fresh _ _ _ _ _ _ huid0 hfreshid]
  rw [HandleCommand_dispatch H _ c _ _ _ hf3]
  simp only [String.reduceEq, ↓reduceIte]
  rw [createGroup_ok _ c _ _ _ hteam (by exact hnoteam)]
  simp only [Outcome.bind]
  rw [HandleCommand_dispatch H _ c _ _ _ hf4]
  simp only [String.reduceEq, ↓reduceIte]
  rw [joinGroup_appends _ c _ _ _ _ _ _ (by exact hG) (by exact hlook) (by exact hF4)]
  simp only [Outcome.bind]
  rw [HandleCommand_dispatch H _ c _ _ _ hf5]
  simp only [String.reduceEq, ↓reduceIte]
  have hpay : "👥 [" ++ "team" ++ "][" ++ "alice" ++ "]: " ++ " ".intercalate ["hi"] ++ "\n"
      = "👥 [team][alice]: hi\n" := by decide
  have hsys : "🔔 System: " ++ ("🟢 " ++ "alice" ++ " has joined the chat") ++ "\n"
      = "🔔 System: 🟢 alice has joined the chat\n" := by decide
  obtain ⟨r0, hr0⟩ := First_isSome_of_mem GroupMember.ID
    (fun r => r.GroupID == nextID (s.groups.map Group.ID) &&
      userIDSubquery
        (s.users ++ [⟨nextID (s.users.map User.ID), "alice", H.GenerateFromPassword "pw1", true⟩])
        (clientsAt (clientsSet s.clients c "alice") c) == some r.UserID)
    (s.groupMembers ++ [⟨nextID (s.groupMembers.map GroupMember.ID),
      nextID (s.users.map User.ID), nextID (s.groups.map Group.ID)⟩])
    ⟨nextID (s.groupMembers.map GroupMember.ID),
      nextID (s.users.map User.ID), nextID (s.groups.map Group.ID)⟩
    (by simp) (by simp [hat, hsub])
  rw [sendGroupMessage_ok _ c _ _ _ _ _ r0 (by exact hfree) hteam (by exact hG) (by exact hr0)]
  simp only [Outcome.bind, hat, hpay, hsys]
  have hcre : "Group created: " ++ "team" = "Group created: team" := by decide
  simp only [hcre, List.append_assoc, List.singleton_append, List.cons_append, List.nil_append]

theorem sendGroupMessage_member (H : Hasher) (s : State) (conn : Conn)
    (message groupName m sender : String) (ms : List String) (group : Group)
    (hfree : s.clientsMutex = false)
    (hlen : cStrlen groupName ≤ 512)
    (hname : (s.users.map User.Username).Nodup)
    (hf : Fields message = "/group_msg" :: groupName :: m :: ms)
    (hg : First Group.ID (fun g => g.Name == groupName) s.groups = some group)
    (hconn : s.clients.lookup conn = some sender)
    (hmem : IsMember s sender group.ID) :
    HandleCommand H s conn message = .returned
      { s with
        produced := s.produced ++
          [(groupName, "👥 [" ++ groupName ++ "][" ++ sender ++ "]: " ++
            " ".intercalate (m :: ms) ++ "\n")]
        writes := s.writes ++
          (s.clients.filter (fun e => memberMatches s.users
            (s.groupMembers.filter (fun x => x.GroupID == group.ID)) e.2)).map
            (fun e => (e.1, "👥 [" ++ groupName ++ "][" ++ sender ++ "]: " ++
              " ".intercalate (m :: ms) ++ "\n")) ++
          [(conn, "Message sent to group\n")] } := by
  obtain ⟨r, hr, hrg, u, hu, hur, hun⟩ := hmem
  have hat : clientsAt s.clients conn = sender := by simp [clientsAt, hconn]
  have hsub : userIDSubquery s.users (clientsAt s.clients conn) = some r.UserID := by
    rw [hat, ← hun, userIDSubquery_of_mem s.users hname u hu, hur]
  obtain ⟨r0, hr0⟩ := First_isSome_of_mem GroupMember.ID
    (fun x => x.GroupID == group.ID &&
      userIDSubquery s.users (clientsAt s.clients conn) == some x.UserID)
    s.groupMembers r hr (by simp [hrg, hsub])
  rw [HandleCommand_dispatch H s conn message _ _ hf]
  simp only [String.reduceEq, ↓reduceIte]
  rw [sendGroupMessage_ok s conn _ groupName m ms group r0 hfree hlen hg hr0, hat]

theorem foldl_lines {α : Type} (f : α → String) (l : List α) (init : String) :
    l.foldl (fun r x => r ++ f x) init = init ++ concatLines (l.map f) := by
  induction l generalizing init with
  | nil => simp [concatLines]
  | cons x l ih =>
    rw [List.foldl_cons, ih, List.map_cons]
    simp [concatLines, String.append_assoc]

theorem listUsers_text (s : State) (conn : Conn) :
    listUsers s conn = .returned (Write s conn (onlineUsersText s)) := by
  unfold listUsers onlineUsersText
  have h := foldl_lines (fun u : User => "- " ++ u.Username ++ "\n")
    (s.users.filter (fun u => u.Online)) "Online Users:\n"
  simp only [String.append_assoc] at h ⊢
  rw [h]

theorem listGroups_text (s : State) (conn : Conn) :
    listGroups s conn = .returned (Write s conn (groupsText s)) := by
  unfold listGroups groupsText
  by_cases hempty : s.groups.isEmpty = true
  · simp [hempty]
  · have h := foldl_lines (fun g : Group => "- " ++ g.Name ++ " (Members: " ++
        Nat.repr (s.groupMembers.countP (fun r => r.GroupID == g.ID)) ++ ")\n")
      s.groups "Available Groups:\n"
    simp only [String.append_assoc] at h
    simp only [hempty, Bool.false_eq_true, if_false, String.append_assoc, List.countP_eq_length_filter] at h ⊢
    rw [h]

/-- The state `afterLogout`, spelled out: three registry entries, two membership rows
in `G`, and the mutex still held by the logout handler that never returned. -/
theorem afterLogout_eq :
    afterLogout =
      { clients := [(0, "A"), (1, "B"), (2, "C")]
        clientsMutex := true
        users := [⟨1, "A", "#pw", true⟩, ⟨2, "B", "#pw", true⟩, ⟨3, "C", "#pw", true⟩,
          ⟨4, "D", "#pw", false⟩]
        groups := [⟨1, "G"⟩]
        groupMembers := [⟨1, 1, 1⟩, ⟨2, 2, 1⟩]
        produced := afterLogout.produced
        writes := afterLogout.writes
        closed := [] } := by
  decide

theorem clientsSet_keys (m : List (Conn × String)) (c : Conn) (name : String)
    (h : (m.map Prod.fst).Nodup) : ((clientsSet m c name).map Prod.fst).Nodup := by
  unfold clientsSet
  by_cases hany : m.any (fun e => e.1 == c) = true
  · rw [if_pos hany, List.map_map]
    have : (Prod.fst ∘ fun e : Conn × String => if e.1 == c then (c, name) else e) = Prod.fst := by
      funext e
      by_cases he : e.1 = c <;> simp [he]
    rw [this]
    exact h
  · rw [if_neg hany, List.map_append, List.nodup_append]
    refine ⟨h, by simp, ?_⟩
    intro a ha hb
    have hac : a = c := by simpa using hb
    rw [hac, List.mem_map] at ha
    obtain ⟨e, he, hec⟩ := ha
    exact hany (List.any_eq_true.mpr ⟨e, he, by simpa using hec⟩)

theorem proj_fanout (text : String) (p : Conn × String → Bool) (l : List (Conn × String))
    (hmap : (l.map Prod.fst).Nodup) (c : Conn) (u : String) (hm : (c, u) ∈ l)
    (hp : p (c, u) = true) :
    ((l.filter p).map (fun e => (e.1, text))).filter (fun e => e.1 == c) = [(c, text)] := by
  have hnd : ((l.filter p).map Prod.fst).Nodup :=
    List.Nodup.sublist (List.Sublist.map _ (List.filter_sublist l)) hmap
  have hk := filter_eq_singleton Prod.fst (l.filter p) (c, u) hnd
    (List.mem_filter.mpr ⟨hm, hp⟩)
  rw [List.filter_map]
  have : ((fun e : Conn × String => e.1 == c) ∘ fun e : Conn × String => (e.1, text))
      = fun y : Conn × String => y.1 == (c, u).1 := by
    funext e
    rfl
  rw [this, hk]
  rfl

theorem proj_all (text : String) (l : List (Conn × String))
    (hmap : (l.map Prod.fst).Nodup) (c : Conn) (u : String) (hm : (c, u) ∈ l) :
    (l.map (fun e => (e.1, text))).filter (fun e => e.1 == c) = [(c, text)] := by
  have := proj_fanout text (fun _ => true) l hmap c u hm rfl
  simpa using this

theorem filter_append5 {α : Type} (p : α → Bool) (a b c d e : List α) :
    (a ++ b ++ c ++ d ++ e).filter p
      = a.filter p ++ b.filter p ++ c.filter p ++ d.filter p ++ e.filter p := by
  simp [List.filter_append]

/-- What `/group_msg` does when nothing is in its way (mutex free, group name short
enough for the bus): the formatted line goes exactly once to every registered
connection whose username has a membership row in the group, and to no other. -/
theorem group_message_scoping_when_free (H : Hasher) (s : State) (conn : Conn)
    (message groupName m sender : String) (ms : List String) (group : Group)
    (hfree : s.clientsMutex = false)
    (hlen : cStrlen groupName ≤ 512)
    (hmap : (s.clients.map Prod.fst).Nodup)
    (hid : (s.users.map User.ID).Nodup)
    (hname : (s.users.map User.Username).Nodup)
    (hf : Fields message = "/group_msg" :: groupName :: m :: ms)
    (hg : First Group.ID (fun g => g.Name == groupName) s.groups = some group)
    (hconn : s.clients.lookup conn = some sender)
    (hmem : IsMember s sender group.ID) :
    ∃ fanout : List (Conn × String),
      HandleCommand H s conn message = .returned
        { s with
          produced := s.produced ++
            [(groupName, "👥 [" ++ groupName ++ "][" ++ sender ++ "]: " ++
              " ".intercalate (m :: ms) ++ "\n")]
          writes := s.writes ++ fanout ++ [(conn, "Message sent to group\n")] } ∧
      (∀ e ∈ fanout, e.2 = "👥 [" ++ groupName ++ "][" ++ sender ++ "]: " ++
        " ".intercalate (m :: ms) ++ "\n") ∧
      (∀ c u, (c, u) ∈ s.clients → IsMember s u group.ID →
        fanout.countP (fun e => e.1 == c) = 1) ∧
      (∀ c, (∀ u, (c, u) ∈ s.clients → ¬ IsMember s u group.ID) →
        ∀ t, (c, t) ∉ fanout) := by
  refine ⟨(s.clients.filter (fun e => memberMatches s.users
      (s.groupMembers.filter (fun x => x.GroupID == group.ID)) e.2)).map
      (fun e => (e.1, "👥 [" ++ groupName ++ "][" ++ sender ++ "]: " ++
        " ".intercalate (m :: ms) ++ "\n")),
    sendGroupMessage_member H s conn message groupName m sender ms group hfree hlen hname hf
      hg
      hconn hmem, ?_, ?_, ?_⟩
  · intro e he
    obtain ⟨k, t⟩ := e
    exact ((fanout_mem_iff _ _ _ k t).mp he).1
  · intro c v hcv hm
    exact fanout_countP _ _ _ hmap c v hcv ((memberMatches_iff s hid group.ID v).mpr hm)
  · intro c hc t ht
    obtain ⟨_, v, hcv, hm⟩ := (fanout_mem_iff _ _ _ c t).mp ht
    exact hc v hcv ((memberMatches_iff s hid group.ID v).mp hm)


/-- A group name longer than 512 bytes stops `/group_msg` of a member before any
delivery: `kafka.SendMessage` panics. -/
theorem group_message_long_topic_panics (H : Hasher) (s : State) (conn : Conn)
    (message groupName m sender : String) (ms : List String) (group : Group)
    (hlen : 512 < cStrlen groupName)
    (hname : (s.users.map User.Username).Nodup)
    (hf : Fields message = "/group_msg" :: groupName :: m :: ms)
    (hg : First Group.ID (fun g => g.Name == groupName) s.groups = some group)
    (hconn : s.clients.lookup conn = some sender)
    (hmem : IsMember s sender group.ID) :
    HandleCommand H s conn message = .panicked s := by
  obtain ⟨r, hr, hrg, u, hu, hur, hun⟩ := hmem
  have hat : clientsAt s.clients conn = sender := by simp [clientsAt, hconn]
  have hsub : userIDSubquery s.users (clientsAt s.clients conn) = some r.UserID := by
    rw [hat, ← hun, userIDSubquery_of_mem s.users hname u hu, hur]
  obtain ⟨r0, hr0⟩ := First_isSome_of_mem GroupMember.ID
    (fun x => x.GroupID == group.ID &&
      userIDSubquery s.users (clientsAt s.clients conn) == some x.UserID)
    s.groupMembers r hr (by simp [hrg, hsub])
  rw [HandleCommand_dispatch H s conn message _ _ hf]
  simp [sendGroupMessage, hg, hr0, SendMessage_long _ _ _ hlen, Outcome.bind]

/-- What `/pm` does when the mutex is free: one write, to a connection bound to the
recipient, or `User not found or offline` to the sender. -/
theorem private_message_routing_when_free (H : Hasher) (s : State) (conn : Conn)
    (message recipient m sender : String) (ms : List String)
    (hfree : s.clientsMutex = false)
    (hf : Fields message = "/pm" :: recipient :: m :: ms)
    (hconn : s.clients.lookup conn = some sender) :
    ((∃ c, (c, recipient) ∈ s.clients) →
      ∃ c, (c, recipient) ∈ s.clients ∧
        HandleCommand H s conn message = .returned
          (Write s c ("Private from " ++ sender ++ ": " ++ " ".intercalate (m :: ms) ++ "\n"))) ∧
    ((∀ c, (c, recipient) ∉ s.clients) →
      HandleCommand H s conn message = .returned (Write s conn "User not found or offline\n")) := by
  have hat : clientsAt s.clients conn = sender := by simp [clientsAt, hconn]
  rw [HandleCommand_dispatch H s conn message _ _ hf]
  constructor
  · rintro ⟨c, hc⟩
    obtain ⟨c0, u0, hfind, hc0⟩ := find_some_of_mem s.clients c recipient hc
    refine ⟨c0, hc0, ?_⟩
    simp [privateMessage, Lock, hfree, Outcome.bind, hfind, Unlock, Write, hat]
  · intro hnone
    have hfind := find_none_of_not_mem s.clients recipient hnone
    simp [privateMessage, Lock, hfree, Outcome.bind, hfind, Unlock, Write]


/-- What `/broadcast` does when the mutex is free: one record on topic `broadcast`
and one write per registry entry. -/
theorem broadcast_fan_out_when_free (H : Hasher) (s : State) (conn : Conn)
    (message m sender : String) (ms : List String)
    (hfree : s.clientsMutex = false)
    (hmap : (s.clients.map Prod.fst).Nodup)
    (hf : Fields message = "/broadcast" :: m :: ms)
    (hconn : s.clients.lookup conn = some sender) :
    HandleCommand H s conn message = .returned
      { s with
        produced := s.produced ++
          [("broadcast", "📢 [" ++ sender ++ "]: " ++ " ".intercalate (m :: ms) ++ "\n")]
        writes := s.writes ++ s.clients.map
          (fun e => (e.1, "📢 [" ++ sender ++ "]: " ++ " ".intercalate (m :: ms) ++ "\n")) } ∧
    (∀ c u, (c, u) ∈ s.clients →
      (s.clients.map
        (fun e => (e.1, "📢 [" ++ sender ++ "]: " ++ " ".intercalate (m :: ms) ++ "\n"))).countP
        (fun e => e.1 == c) = 1) ∧
    (∀ c, (∀ u, (c, u) ∉ s.clients) → ∀ t,
      (c, t) ∉ s.clients.map
        (fun e => (e.1, "📢 [" ++ sender ++ "]: " ++ " ".intercalate (m :: ms) ++ "\n"))) ∧
    (conn, "📢 [" ++ sender ++ "]: " ++ " ".intercalate (m :: ms) ++ "\n") ∈
      s.clients.map
        (fun e => (e.1, "📢 [" ++ sender ++ "]: " ++ " ".intercalate (m :: ms) ++ "\n")) := by
  have hat : clientsAt s.clients conn = sender := by simp [clientsAt, hconn]
  refine ⟨?_, ?_, ?_, ?_⟩
  · rw [HandleCommand_dispatch H s conn message _ _ hf]
    simp [broadcastMessage, Lock, hfree, Outcome.bind, Unlock,
      SendMessage_ok _ _ _ cStrlen_broadcast, writeToAll_eq, hat]
  · intro c u hcu
    have := fanout_countP
      ("📢 [" ++ sender ++ "]: " ++ " ".intercalate (m :: ms) ++ "\n")
      (fun _ => true) s.clients hmap c u hcu rfl
    simpa using this
  · intro c hc t ht
    rw [List.mem_map] at ht
    obtain ⟨⟨k, u⟩, hm, hk⟩ := ht
    simp only [Prod.mk.injEq] at hk
    exact hc u (hk.1 ▸ hm)
  · exact List.mem_map.mpr ⟨(conn, sender), lookup_mem _ _ _ hconn, rfl⟩

/-! ## Group message: who receives it -/

/-- C1 (the code departs from the claim): in a state the server reaches by
itself, `A`, `B`, `C` are online and `A` and `B` have a membership row in `G`,
yet `/group_msg G hello` from `A` delivers to nobody.  A fourth user has logged
out before, `logoutUser` never released `clientsMutex` (the defect of the logout
handler), and `sendGroupMessage` blocks in `clientsMutex.Lock()` after producing
the record and before its first write. -/
theorem group_message_blocks_after_logout :
    afterLogout.clients = [(0, "A"), (1, "B"), (2, "C")] ∧
    afterLogout.groups = [⟨1, "G"⟩] ∧
    afterLogout.groupMembers = [⟨1, 1, 1⟩, ⟨2, 2, 1⟩] ∧
    IsMember afterLogout "A" 1 ∧ IsMember afterLogout "B" 1 ∧
    HandleCommand toyHasher afterLogout 0 "/group_msg G hello" = .blocked
      { afterLogout with
        produced := afterLogout.produced ++ [("G", "👥 [G][A]: hello\n")] } := by
  refine ⟨by decide, by decide, by decide, ?_, ?_, by decide⟩
  · exact ⟨⟨1, 1, 1⟩, by decide, rfl, ⟨1, "A", "#pw", true⟩, by decide, rfl, rfl⟩
  · exact ⟨⟨2, 2, 1⟩, by decide, rfl, ⟨2, "B", "#pw", true⟩, by decide, rfl, rfl⟩

/-! ## Joining a group twice -/

/-- After register, login, create and a first `/group_join team`, a second `/group_join
team` on the same connection is answered `Joined group successfully` and leaves two
membership rows for the pair (1, 1). -/
theorem join_twice_counterexample :
    HandleCommand toyHasher
        (run toyHasher initial
          [(0, "/register alice pw1"), (0, "/login alice pw1"), (0, "/group_create team"),
           (0, "/group_join team")]) 0 "/group_join team"
      = .returned
        (Write
          { run toyHasher initial
              [(0, "/register alice pw1"), (0, "/login alice pw1"), (0, "/group_create team"),
               (0, "/group_join team")] with
            groupMembers := [⟨1, 1, 1⟩, ⟨2, 1, 1⟩] }
          0 "Joined group successfully\n") := by
  decide

/-- C2 (as the code has it): `joinGroup` never looks for an existing membership.  For a
logged-in user with an account and an existing group, two `/group_join` in a row both
return, both answer `Joined group successfully`, and append two rows for the same (user,
group) pair with consecutive keys; nothing else changes. -/
theorem join_twice_adds_two_rows (H : Hasher) (s : State) (conn : Conn)
    (message groupName username : String) (rest : List String) (group : Group) (user : User)
    (hf : Fields message = "/group_join" :: groupName :: rest)
    (hg : First Group.ID (fun g => g.Name == groupName) s.groups = some group)
    (hconn : s.clients.lookup conn = some username)
    (hu : First User.ID (fun u => u.Username == username) s.users = some user) :
    (HandleCommand H s conn message).bind (fun s1 => HandleCommand H s1 conn message)
      = .returned
        { s with
          groupMembers := s.groupMembers ++
            [⟨nextID (s.groupMembers.map GroupMember.ID), user.ID, group.ID⟩,
             ⟨nextID (s.groupMembers.map GroupMember.ID) + 1, user.ID, group.ID⟩]
          writes := s.writes ++
            [(conn, "Joined group successfully\n"), (conn, "Joined group successfully\n")] } := by
  rw [HandleCommand_dispatch H s conn message _ _ hf]
  simp only [String.reduceEq, if_false, if_true]
  rw [joinGroup_appends s conn groupName username rest _ group user hg hconn hu]
  simp only [Outcome.bind]
  rw [HandleCommand_dispatch H _ conn message _ _ hf]
  simp only [String.reduceEq, if_false, if_true]
  rw [joinGroup_appends _ conn groupName username rest _ group user
    (by simpa using hg) (by simpa using hconn) (by simpa using hu)]
  simp [nextID_append]

/-- Two joins of `team` by `alice`, evaluated. -/
theorem join_twice_adds_two_rows_witness :
    (HandleCommand toyHasher { aliceOnline with groups := [⟨1, "team"⟩] } 0 "/group_join team").bind
        (fun s1 => HandleCommand toyHasher s1 0 "/group_join team")
      = .returned
        { aliceOnline with
          groups := [⟨1, "team"⟩]
          groupMembers := [⟨1, 1, 1⟩, ⟨2, 1, 1⟩]
          writes := [(0, "Joined group successfully\n"), (0, "Joined group successfully\n")] } :=
  join_twice_adds_two_rows toyHasher { aliceOnline with groups := [⟨1, "team"⟩] } 0
    "/group_join team" "team" "alice" [] ⟨1, "team"⟩ ⟨1, "alice", "#pw1", true⟩
    (by decide) (by decide) (by decide) (by decide)

/-! ## Commands from a connection that is not logged in -/

/-- Connection 0 has no registry entry.  `/group_join` and `/group_leave` are refused with
two different lines, `/logout` and `/list_groups` are answered, and `/group_create`
writes a group row and produces a record. -/
theorem unauthenticated_counterexample :
    teamOnly.clients.lookup 0 = none ∧
    HandleCommand toyHasher teamOnly 0 "/group_join team"
      = .returned (Write teamOnly 0 "You must be logged in to join a group\n") ∧
    HandleCommand toyHasher teamOnly 0 "/group_leave team"
      = .returned (Write teamOnly 0 "You must be logged in to leave a group\n") ∧
    HandleCommand toyHasher teamOnly 0 "/logout"
      = .returned (Write teamOnly 0 "Logged out successfully\n") ∧
    HandleCommand toyHasher teamOnly 0 "/list_groups"
      = .returned (Write teamOnly 0 "Available Groups:\n- team (Members: 0)\n") ∧
    HandleCommand toyHasher teamOnly 0 "/group_create crew"
      = .returned
        { teamOnly with
          groups := [⟨1, "team"⟩, ⟨2, "crew"⟩]
          produced := [("crew", "Group created: crew")]
          writes := [(0, "Group created successfully\n")] } := by
  decide


/-- C3 (as the code has it): for a connection with no registry entry,
`/group_leave g` is refused with `You must be logged in to leave a group`;
`/group_join g` is refused with `You must be logged in to join a group` when `g`
exists and answered `Group not found` when it does not; `/group_msg g body` is
answered `Group not found` when `g` does not exist and refused with `You are not
a member of this group` when it does (no account carrying the empty username);
`/logout` is answered `Logged out successfully` when the mutex is free and blocks
without any effect when it is held; `/list_user` is answered with the list of the
accounts flagged online and `/list_groups` with the list of groups and their row
counts.  Wherever the handler returns, its only effect is that one write to the
issuing connection. -/
theorem unauthenticated_commands (H : Hasher) (s : State) (conn : Conn)
    (message verb : String) (args : List String)
    (hno : s.clients.lookup conn = none)
    (hf : Fields message = verb :: args) :
    (verb = "/group_leave" → args ≠ [] →
      HandleCommand H s conn message
        = .returned (Write s conn "You must be logged in to leave a group\n")) ∧
    (verb = "/group_join" → ∀ groupName rest group, args = groupName :: rest →
      First Group.ID (fun g => g.Name == groupName) s.groups = some group →
      HandleCommand H s conn message
        = .returned (Write s conn "You must be logged in to join a group\n")) ∧
    (verb = "/group_join" → ∀ groupName rest, args = groupName :: rest →
      First Group.ID (fun g => g.Name == groupName) s.groups = none →
      HandleCommand H s conn message = .returned (Write s conn "Group not found\n")) ∧
    (verb = "/group_msg" → ∀ groupName m ms, args = groupName :: m :: ms →
      First Group.ID (fun g => g.Name == groupName) s.groups = none →
      HandleCommand H s conn message = .returned (Write s conn "Group not found\n")) ∧
    (verb = "/group_msg" → ∀ groupName m ms group, args = groupName :: m :: ms →
      First Group.ID (fun g => g.Name == groupName) s.groups = some group →
      (∀ u ∈ s.users, u.Username ≠ "") →
      HandleCommand H s conn message
        = .returned (Write s conn "You are not a member of this group\n")) ∧
    (verb = "/logout" → s.clientsMutex = false →
      HandleCommand H s conn message = .returned (Write s conn "Logged out successfully\n")) ∧
    (verb = "/logout" → s.clientsMutex = true →
      HandleCommand H s conn message = .blocked s) ∧
    (verb = "/list_user" →
      HandleCommand H s conn message = .returned (Write s conn (onlineUsersText s))) ∧
    (verb = "/list_groups" →
      HandleCommand H s conn message = .returned (Write s conn (groupsText s))) := by
  rw [HandleCommand_dispatch H s conn message _ _ hf]
  refine ⟨?_, ?_, ?_, ?_, ?_, ?_, ?_, ?_, ?_⟩
  · rintro rfl hargs
    match args, hargs with
    | _ :: _, _ => simp [leaveGroup, hno]
  · rintro rfl groupName rest group rfl hg
    simp [joinGroup, hg, hno]
  · rintro rfl groupName rest rfl hg
    simp [joinGroup, hg]
  · rintro rfl groupName m ms rfl hg
    simp [sendGroupMessage, hg]
  · rintro rfl groupName m ms group rfl hg hnames
    have hat : clientsAt s.clients conn = "" := by simp [clientsAt, hno]
    have hsub : userIDSubquery s.users "" = none := by
      have : s.users.filter (fun u => u.Username == "") = [] := by
        rw [List.filter_eq_nil_iff]
        intro u hu
        simpa using hnames u hu
      simp [userIDSubquery, this]
    have hr : First GroupMember.ID
        (fun r => r.GroupID == group.ID &&
          userIDSubquery s.users (clientsAt s.clients conn) == some r.UserID)
        s.groupMembers = none := by
      rw [First_eq_none_iff]
      intro r _
      simp [hat, hsub]
    simp [sendGroupMessage, hg, hr]
  · rintro rfl hfree
    simp [logoutUser, Lock, hfree, Outcome.bind, hno, Unlock, Write]
  · rintro rfl hheld
    simp [logoutUser, Lock, hheld, Outcome.bind]
  · rintro rfl
    simp only [String.reduceEq, ↓reduceIte]
    exact listUsers_text s conn
  · rintro rfl
    simp only [String.reduceEq, ↓reduceIte]
    exact listGroups_text s conn

/-- The refusals and the listings from connection 0, which is not logged in, evaluated in
a state with one group. -/
theorem unauthenticated_commands_witness :
    HandleCommand toyHasher teamOnly 0 "/group_leave team"
      = .returned (Write teamOnly 0 "You must be logged in to leave a group\n") ∧
    HandleCommand toyHasher teamOnly 0 "/group_msg team hi"
      = .returned (Write teamOnly 0 "You are not a member of this group\n") ∧
    HandleCommand toyHasher teamOnly 0 "/list_groups"
      = .returned (Write teamOnly 0 (groupsText teamOnly)) ∧
    groupsText teamOnly = "Available Groups:\n- team (Members: 0)\n" :=
  ⟨(unauthenticated_commands toyHasher teamOnly 0 "/group_leave team" "/group_leave" ["team"]
      (by decide) (by decide)).1 rfl (by decide),
   (unauthenticated_commands toyHasher teamOnly 0 "/group_msg team hi" "/group_msg"
      ["team", "hi"] (by decide) (by decide)).2.2.2.2.1 rfl "team" "hi" [] ⟨1, "team"⟩ rfl
      (by decide) (by decide),
   (unauthenticated_commands toyHasher teamOnly 0 "/list_groups" "/list_groups" []
      (by decide) (by decide)).2.2.2.2.2.2.2.2 rfl,
   by decide⟩

/-! ## Usage errors -/

/-- C4: a known command with the wrong number of arguments (`/login` with other than two
arguments; `/register`, `/pm`, `/group_msg` with fewer than two; `/broadcast`,
`/group_create`, `/group_join`, `/group_leave` with none) returns, in every state and on
every connection, and its only effect is one write of that command's usage line to the
issuing connection. -/
theorem usage_errors_are_side_effect_free (H : Hasher) (s : State) (conn : Conn)
    (message verb : String) (args : List String)
    (hf : Fields message = verb :: args)
    (hbad : (verb = "/login" ∧ args.length ≠ 2) ∨
      (verb ∈ ["/register", "/pm", "/group_msg"] ∧ args.length < 2) ∨
      (verb ∈ ["/broadcast", "/group_create", "/group_join", "/group_leave"] ∧
        args.length < 1)) :
    HandleCommand H s conn message = .returned (Write s conn (usageLine verb)) := by
  unfold HandleCommand
  rw [hf]
  rcases hbad with ⟨rfl, h⟩ | ⟨hv, h⟩ | ⟨hv, h⟩
  · match args, h with
    | [], _ => simp [loginUser, usageLine]
    | [_], _ => simp [loginUser, usageLine]
    | _ :: _ :: _ :: _, _ => simp [loginUser, usageLine]
  · simp only [List.mem_cons, List.mem_singleton, List.not_mem_nil, or_false] at hv
    match args, h with
    | [], _ => rcases hv with rfl | rfl | rfl <;> simp [registerUser, privateMessage, sendGroupMessage, usageLine]
    | [_], _ => rcases hv with rfl | rfl | rfl <;> simp [registerUser, privateMessage, sendGroupMessage, usageLine]
  · simp only [List.mem_cons, List.mem_singleton, List.not_mem_nil, or_false] at hv
    match args, h with
    | [], _ => rcases hv with rfl | rfl | rfl | rfl <;> simp [broadcastMessage, createGroup, joinGroup, leaveGroup, usageLine]

/-- The line `/login alice` is answered with the usage line of `/login` and changes nothing else. -/
theorem usage_errors_are_side_effect_free_witness :
    HandleCommand toyHasher aliceOnline 1 "/login alice"
      = .returned (Write aliceOnline 1 "Usage: /login <username> <password>\n") :=
  usage_errors_are_side_effect_free toyHasher aliceOnline 1 "/login alice" "/login" ["alice"]
    (by decide) (Or.inl ⟨rfl, by decide⟩)

/-! ## Online flags and the registry -/

/-- A connection registers, logs in and then fails to read: `handleClient` returns with the
entry `(0, alice)` still in the registry and `alice` still online. -/
theorem disconnect_counterexample :
    handleClient toyHasher initial 0 ["/register alice pw1", "/login alice pw1"]
    = .returned
        { clients := [(0, "alice")]
          clientsMutex := false
          users := [⟨1, "alice", "#pw1", true⟩]
          groups := []
          groupMembers := []
          produced := [("system", "🔔 System: 🟢 alice has joined the chat\n")]
          writes := [(0, "Registration successful! Use /login <username> <password> to login.\n"),
                     (0, "Login successful! You can now chat.\n"),
                     (0, "🔔 System: 🟢 alice has joined the chat\n")]
          closed := [0] } := by
  decide

/-- C6 (as the code has it): whenever the commands read before the failing read
have all returned, leaving state `t`, `handleClient` returns, and the state it
returns in is `t` with the connection added to the closed ones.  Registry,
accounts, produced records and writes are exactly as the last command left
them: a connection that was logged in keeps its registry entry and its account
stays online. -/
theorem disconnect_only_closes (H : Hasher) (s t : State) (conn : Conn) (reads : List String)
    (h : serve H s conn reads = .returned t) :
    handleClient H s conn reads = .returned { t with closed := t.closed ++ [conn] } ∧
    (∀ username, t.clients.lookup conn = some username →
      ({ t with closed := t.closed ++ [conn] } : State).clients.lookup conn = some username) ∧
    (∀ u ∈ t.users, u ∈ ({ t with closed := t.closed ++ [conn] } : State).users) := by
  refine ⟨?_, fun _ hu => hu, fun _ hu => hu⟩
  rw [handleClient_eq_serve, h]
  rfl

/-- A logged-in connection sends itself a private message and then fails to
read: the entry and the online flag are still there. -/
theorem disconnect_only_closes_witness :
    handleClient toyHasher aliceOnline 0 ["/pm alice hi"] = .returned
      { aliceOnline with
        writes := [(0, "Private from alice: hi\n")]
        closed := [0] } :=
  (disconnect_only_closes toyHasher aliceOnline
    { aliceOnline with writes := [(0, "Private from alice: hi\n")] } 0 ["/pm alice hi"]
    (by decide)).1

/-! ## Private messages -/

/-- C7 (the code departs from the claim): in a state the server reaches by
itself, `A` and `B` are online, yet `/pm B hello` from `A` writes to nobody and
does not return.  A fourth user has logged out before, `logoutUser` never
released `clientsMutex` (the defect of the logout handler), and `privateMessage`
blocks in `clientsMutex.Lock()` before its lookup. -/
theorem private_message_blocks_after_logout :
    afterLogout.clients = [(0, "A"), (1, "B"), (2, "C")] ∧
    HandleCommand toyHasher afterLogout 0 "/pm B hello" = .blocked afterLogout := by
  decide

/-! ## Broadcast -/

/-- C8 (the code departs from the claim): in a state the server reaches by
itself, with `A`, `B`, `C` registered, `/broadcast hello` from `A` produces
nothing, writes to nobody and does not return.  A fourth user has logged out
before, `logoutUser` never released `clientsMutex` (the defect of the logout
handler), and `broadcastMessage` blocks in its first `clientsMutex.Lock()`. -/
theorem broadcast_blocks_after_logout :
    afterLogout.clients = [(0, "A"), (1, "B"), (2, "C")] ∧
    HandleCommand toyHasher afterLogout 0 "/broadcast hello" = .blocked afterLogout := by
  decide

/-! ## The end-to-end scenario -/

/-- With `bob` online and a member of `team`, the line `bob` receives for the message of
`alice` is `👥 [team][alice]: hi` plus newline, which is not the line `[team][alice]: hi`
plus newline. -/
theorem end_to_end_counterexample :
    (run toyHasher initial
        [(1, "/register bob pw2"), (1, "/login bob pw2"),
         (0, "/register alice pw1"), (0, "/login alice pw1"), (0, "/group_create team"),
         (1, "/group_join team"),
         (0, "/group_join team"), (0, "/group_msg team hi")]).writes.filter
        (fun e => e.1 == 1)
      = [(1, "Registration successful! Use /login <username> <password> to login.\n"),
         (1, "Login successful! You can now chat.\n"),
         (1, "🔔 System: 🟢 bob has joined the chat\n"),
         (1, "🔔 System: 🟢 alice has joined the chat\n"),
         (1, "Joined group successfully\n"),
         (1, "👥 [team][alice]: hi\n")] ∧
    "👥 [team][alice]: hi\n" ≠ "[team][alice]: hi\n" := by
  decide


/-- C9 (as the code has it).  First part: take any state with the mutex free, the registry
a map, distinct account keys, no account `alice` and no group `team`, and a hasher that
accepts the password it hashed.  The five commands all return on the connection of
`alice`.  The new writes are, in order: the registration line, the login line, the
system join notice to every registered connection, `Group created successfully`,
`Joined group successfully`, the group line, and `Message sent to group`; on the
connection of `alice` they read exactly as the seven lines listed.  The group line is
`👥 [team][alice]: hi` plus newline; every registered connection whose username has a
membership row in `team` gets it exactly once, the sender among them, and no other
connection gets it.  Second part: for every existing group `g` whose name fits the bus,
logged-in member `s` and body, with the mutex free, the text `👥 [g][s]: body` plus
newline is written exactly once to every registered connection whose username has a
membership row in `g`, and to no other connection. -/
theorem end_to_end_group_message :
    (∀ (H : Hasher) (s : State) (c : Conn),
      s.clientsMutex = false →
      (s.clients.map Prod.fst).Nodup →
      (s.users.map User.ID).Nodup →
      (∀ u ∈ s.users, u.Username ≠ "alice") →
      (∀ g ∈ s.groups, g.Name ≠ "team") →
      H.CompareHashAndPassword (H.GenerateFromPassword "pw1") "pw1" = true →
      ∃ (t : State) (new grpFan : List (Conn × String)),
        serve H s c ["/register alice pw1", "/login alice pw1", "/group_create team",
          "/group_join team", "/group_msg team hi"] = .returned t ∧
        t.clients = clientsSet s.clients c "alice" ∧
        First Group.ID (fun g => g.Name == "team") t.groups
          = some ⟨nextID (s.groups.map Group.ID), "team"⟩ ∧
        t.writes = s.writes ++ new ∧
        new =
          [(c, "Registration successful! Use /login <username> <password> to login.\n"),
           (c, "Login successful! You can now chat.\n")] ++
          t.clients.map (fun e => (e.1, "🔔 System: 🟢 alice has joined the chat\n")) ++
          [(c, "Group created successfully\n"), (c, "Joined group successfully\n")] ++
          grpFan ++ [(c, "Message sent to group\n")] ∧
        new.filter (fun e => e.1 == c) =
          [(c, "Registration successful! Use /login <username> <password> to login.\n"),
           (c, "Login successful! You can now chat.\n"),
           (c, "🔔 System: 🟢 alice has joined the chat\n"),
           (c, "Group created successfully\n"),
           (c, "Joined group successfully\n"),
           (c, "👥 [team][alice]: hi\n"),
           (c, "Message sent to group\n")] ∧
        (∀ e ∈ grpFan, e.2 = "👥 [team][alice]: hi\n") ∧
        (∀ k u, (k, u) ∈ t.clients → IsMember t u (nextID (s.groups.map Group.ID)) →
          grpFan.countP (fun e => e.1 == k) = 1) ∧
        (∀ k, (∀ u, (k, u) ∈ t.clients → ¬ IsMember t u (nextID (s.groups.map Group.ID))) →
          ∀ x, (k, x) ∉ grpFan) ∧
        (c, "alice") ∈ t.clients ∧
        IsMember t "alice" (nextID (s.groups.map Group.ID))) ∧
    (∀ (H : Hasher) (s : State) (conn : Conn) (message groupName m sender : String)
        (ms : List String) (group : Group),
      s.clientsMutex = false →
      cStrlen groupName ≤ 512 →
      (s.clients.map Prod.fst).Nodup →
      (s.users.map User.ID).Nodup →
      (s.users.map User.Username).Nodup →
      Fields message = "/group_msg" :: groupName :: m :: ms →
      First Group.ID (fun g => g.Name == groupName) s.groups = some group →
      s.clients.lookup conn = some sender →
      IsMember s sender group.ID →
      ∃ fanout : List (Conn × String),
        HandleCommand H s conn message = .returned
          { s with
            produced := s.produced ++
              [(groupName, "👥 [" ++ groupName ++ "][" ++ sender ++ "]: " ++
                " ".intercalate (m :: ms) ++ "\n")]
            writes := s.writes ++ fanout ++ [(conn, "Message sent to group\n")] } ∧
        (∀ e ∈ fanout, e.2 = "👥 [" ++ groupName ++ "][" ++ sender ++ "]: " ++
          " ".intercalate (m :: ms) ++ "\n") ∧
        (∀ c u, (c, u) ∈ s.clients → IsMember s u group.ID →
          fanout.countP (fun e => e.1 == c) = 1) ∧
        (∀ c, (∀ u, (c, u) ∈ s.clients → ¬ IsMember s u group.ID) →
          ∀ t, (c, t) ∉ fanout)) := by
  refine ⟨?_, fun H s conn message groupName m sender ms group hfree hlen hmap hid hname hf hg
    hconn hmem => group_message_scoping_when_free H s conn message groupName m sender ms group
      hfree hlen hmap hid hname hf hg hconn hmem⟩
  intro H s c hfree hmap hid hnoalice hnoteam hpw
  have hrun := end_to_end_scenario H s c hfree hnoalice hnoteam hpw
  have hlook : (clientsSet s.clients c "alice").lookup c = some "alice" :=
    lookup_clientsSet _ _ _
  have hcmem : (c, "alice") ∈ clientsSet s.clients c "alice" := lookup_mem _ _ _ hlook
  have hkeys := clientsSet_keys s.clients c "alice" hmap
  have hfreshid : ∀ u ∈ s.users, u.ID ≠ nextID (s.users.map User.ID) := fun u hu h =>
    nextID_not_mem (s.users.map User.ID) (h ▸ List.mem_map_of_mem User.ID hu)
  have hid2 : ((s.users ++ [(⟨nextID (s.users.map User.ID), "alice",
      H.GenerateFromPassword "pw1", true⟩ : User)]).map User.ID).Nodup := by
    rw [List.map_append, List.nodup_append]
    refine ⟨hid, by simp, ?_⟩
    intro a ha hb
    have : a = nextID (s.users.map User.ID) := by simpa using hb
    rw [this] at ha
    exact nextID_not_mem _ ha
  have hG : First Group.ID (fun g => g.Name == "team")
      (s.groups ++ [⟨nextID (s.groups.map Group.ID), "team"⟩])
      = some ⟨nextID (s.groups.map Group.ID), "team"⟩ := by
    apply First_unique _ _ _ _ (by simp) (by simp)
    intro y hy hp
    rcases List.mem_append.mp hy with hy | hy
    · exact absurd (by simpa using hp) (hnoteam y hy)
    · simpa using hy
  have hrow : (⟨nextID (s.groupMembers.map GroupMember.ID), nextID (s.users.map User.ID),
      nextID (s.groups.map Group.ID)⟩ : GroupMember) ∈ s.groupMembers ++
        [(⟨nextID (s.groupMembers.map GroupMember.ID), nextID (s.users.map User.ID),
          nextID (s.groups.map Group.ID)⟩ : GroupMember)] := by simp
  have halice : (⟨nextID (s.users.map User.ID), "alice", H.GenerateFromPassword "pw1",
      true⟩ : User) ∈ s.users ++ [(⟨nextID (s.users.map User.ID), "alice",
        H.GenerateFromPassword "pw1", true⟩ : User)] := by simp
  have key := fun u : String => memberMatches_iff
    ({ s with
        users := s.users ++ [(⟨nextID (s.users.map User.ID), "alice",
          H.GenerateFromPassword "pw1", true⟩ : User)]
        groupMembers := s.groupMembers ++
          [(⟨nextID (s.groupMembers.map GroupMember.ID), nextID (s.users.map User.ID),
            nextID (s.groups.map Group.ID)⟩ : GroupMember)] } : State)
    hid2 (nextID (s.groups.map Group.ID)) u
  refine ⟨_, _, _, hrun, rfl, hG, rfl, rfl, ?_, ?_, ?_, ?_, hcmem, ?_⟩
  · have hmm := (key "alice").mpr
      ⟨(⟨nextID (s.groupMembers.map GroupMember.ID), nextID (s.users.map User.ID),
      nextID (s.groups.map Group.ID)⟩ : GroupMember), hrow, rfl,
       (⟨nextID (s.users.map User.ID), "alice", H.GenerateFromPassword "pw1", true⟩ : User), halice, rfl, rfl⟩
    rw [filter_append5, proj_all _ _ hkeys c "alice" hcmem,
      proj_fanout _ _ _ hkeys c "alice" hcmem hmm]
    simp
  · intro e he
    obtain ⟨k, x⟩ := e
    exact ((fanout_mem_iff _ _ _ k x).mp he).1
  · intro k u hku hm
    exact fanout_countP _ _ _ hkeys k u hku
      ((key u).mpr hm)
  · intro k hk x hx
    obtain ⟨_, v, hkv, hm⟩ := (fanout_mem_iff _ _ _ k x).mp hx
    exact hk v hkv ((key v).mp hm)
  · exact ⟨(⟨nextID (s.groupMembers.map GroupMember.ID), nextID (s.users.map User.ID),
      nextID (s.groups.map Group.ID)⟩ : GroupMember), hrow, rfl,
      (⟨nextID (s.users.map User.ID), "alice", H.GenerateFromPassword "pw1", true⟩ : User), halice, rfl, rfl⟩

/-- The scenario run on a fresh server, and a group message of `B` in the three-user
state, where `A` and `B` get the line once each. -/
theorem end_to_end_group_message_witness :
    (∃ (t : State) (new : List (Conn × String)),
      serve toyHasher initial 0 ["/register alice pw1", "/login alice pw1",
        "/group_create team", "/group_join team", "/group_msg team hi"] = .returned t ∧
      t.writes = initial.writes ++ new ∧
      new.filter (fun e => e.1 == 0) =
        [(0, "Registration successful! Use /login <username> <password> to login.\n"),
         (0, "Login successful! You can now chat.\n"),
         (0, "🔔 System: 🟢 alice has joined the chat\n"),
         (0, "Group created successfully\n"),
         (0, "Joined group successfully\n"),
         (0, "👥 [team][alice]: hi\n"),
         (0, "Message sent to group\n")]) ∧
    (∃ fanout : List (Conn × String),
      HandleCommand toyHasher scopingState 1 "/group_msg G see you" = .returned
        { scopingState with
          produced := scopingState.produced ++
            [("G", "👥 [" ++ "G" ++ "][" ++ "B" ++ "]: " ++
              " ".intercalate ("see" :: ["you"]) ++ "\n")]
          writes := scopingState.writes ++ fanout ++ [(1, "Message sent to group\n")] } ∧
      fanout.countP (fun e => e.1 == 0) = 1 ∧
      ∀ x, (2, x) ∉ fanout) := by
  constructor
  · obtain ⟨t, new, grpFan, h1, _, _, h4, _, h6, _⟩ :=
      end_to_end_group_message.1 toyHasher initial 0 rfl (by decide) (by decide) (by decide)
        (by decide) (by decide)
    exact ⟨t, new, h1, h4, h6⟩
  · obtain ⟨fanout, h1, _, h3, h4⟩ :=
      end_to_end_group_message.2 toyHasher scopingState 1 "/group_msg G see you" "G" "see" "B"
        ["you"] ⟨1, "G"⟩ rfl (by decide) (by decide) (by decide) (by decide) (by decide)
        (by decide) (by decide)
        ⟨⟨2, 2, 1⟩, by decide, rfl, ⟨2, "B", "", true⟩, by decide, rfl, rfl⟩
    refine ⟨fanout, h1, ?_, ?_⟩
    · exact h3 0 "A" (by decide)
        ⟨⟨1, 1, 1⟩, by decide, rfl, ⟨1, "A", "", true⟩, by decide, rfl, rfl⟩
    · apply h4 2
      intro u hu hm
      have hu2 : u = "C" := by
        simp [scopingState, initial] at hu
        exact hu
      subst hu2
      obtain ⟨r, hr, _, v, hv, hvr, hvn⟩ := hm
      simp [scopingState, initial] at hr hv
      rcases hv with rfl | rfl | rfl <;> simp at hvn
      rcases hr with rfl | rfl | rfl <;> simp at hvr

/-! ## Logout and the registry mutex -/

/-- C10 (the code departs from the claim): `/logout` on a logged-in connection does not
reach its final step.  `logoutUser` still holds `clientsMutex` when it calls
`broadcastSystemMessage`, whose own `clientsMutex.Lock()` then never returns: the entry
is removed and the account set offline, but the mutex stays held and `Logged out
successfully` is never written. -/
theorem logout_blocks_on_held_mutex :
    HandleCommand toyHasher aliceOnline 0 "/logout" = .blocked
      { aliceOnline with
        clients := []
        clientsMutex := true
        users := [⟨1, "alice", "#pw1", false⟩]
        produced := [("system", "🔔 System: 🔴 alice has left the chat\n")]
        writes := [] } := by
  decide

end KafkaConnect
